import Mathlib

/-!
Resolution of the container configuration by `podman create`.

A shallow embedding of `cmd/podman/create.go` (`parseSecurityOpt` and
`parseCreateOpts`) together with the properties its specification states.

Conventions of the embedding

* Go `error` values are their message strings; `errors.Wrapf err msg` is
  `msg ++ ": " ++ err`.
* A function that returns `(v, error)` becomes a function into `Except String`.
* `map[string]string` is an association list with unique keys (`StrMap`);
  writing a key replaces the existing entry or appends a new one.
* `parseSecurityOpt` receives the configuration by pointer; here it returns the
  configuration as it stands when the function returns, next to the error.
* The process-wide table `defaultEnvVariables` is passed in and handed back.
* Functions and constants that `create.go` calls but does not define are the
  fields of `Externals`; every theorem holds for all of them.
* `float64` flag values are read as rationals (only their sign is inspected).
* Strings are sequences of characters; the separators the code splits at are ASCII.
* `verifyContainerResources` is read through its results, the warnings or the error; the
  configuration it is handed is the one `parseCreateOpts` returns.
-/

namespace Podman

/-! ## Strings and maps -/

/-- The Go call `strings.SplitN(s, sep, 2)` for a one-character separator: `[s]` when `sep`
does not occur in `s`, otherwise the text before and the text after its first occurrence. -/
def splitN2 (s : String) (sep : Char) : List String :=
  match s.toList.span (fun ch => ch != sep) with
  | (_, []) => [s]
  | (before, _ :: after) => [String.mk before, String.mk after]

/-- The Go call `strings.Join(xs, "")`. -/
def joinEmpty (xs : List String) : String :=
  xs.foldl (fun acc x => acc ++ x) ""

/-- The message of `errors.Wrapf(err, msg)`. -/
def Wrapf (err : String) (msg : String) : String :=
  msg ++ ": " ++ err

/-- Wrap the error of a fallible call, as `if err != nil { return nil, errors.Wrapf(err, msg) }`. -/
def wrapErr {α : Type} (r : Except String α) (msg : String) : Except String α :=
  match r with
  | .ok v => .ok v
  | .error err => .error (Wrapf err msg)

/-- A Go `map[string]string`. -/
abbrev StrMap := List (String × String)

/-- The Go test `_, ok := m[key]`. -/
def StrMap.has (m : StrMap) (key : String) : Bool :=
  m.any (fun kv => kv.1 == key)

/-- The Go assignment `m[key] = val`. -/
def StrMap.set : StrMap → String → String → StrMap
  | [], key, val => [(key, val)]
  | (k, v) :: rest, key, val =>
    if k = key then (k, val) :: rest else (k, v) :: StrMap.set rest key val

/-- The Go read `m[key]` with its presence flag. -/
def StrMap.get? (m : StrMap) (key : String) : Option String :=
  (m.find? (fun kv => kv.1 == key)).map (fun kv => kv.2)

/-! ## Data model -/

/-- What `os.Stat` can report, as far as `parseSecurityOpt` tells the cases apart:
`err == nil`, `os.IsNotExist(err)`, or any other error (with its message). -/
inductive StatResult where
  | present
  | notExist
  | otherError (err : String)
  deriving DecidableEq, Repr

/-- The part of `libpod.Container` that the resolution reads. -/
structure Container where
  ProcessLabel : String
  ShmDir : String
  deriving DecidableEq, Repr

/-- The container-lookup capability `libpod.Runtime`. -/
structure Runtime where
  LookupContainer : String → Except String Container

/-- The flag values of `cli.Context`, read through its typed accessors. -/
structure Context where
  args : List String
  string : String → String
  stringSlice : String → List String
  bool : String → Bool
  int : String → Int
  int64 : String → Int
  uint : String → Nat
  uint64 : String → Nat
  float64 : String → Rat
  isSet : String → Bool

/-- The fields of `inspect.ImageData.ContainerConfig` that the resolution reads. -/
structure ImageConfig where
  User : String
  StopSignal : String
  Env : List String
  Labels : StrMap
  WorkingDir : String
  Entrypoint : List String
  Cmd : List String
  ExposedPorts : List String
  Volumes : List String
  deriving DecidableEq, Repr

/-- The record `inspect.ImageData`. -/
structure ImageData where
  ID : String
  ContainerConfig : ImageConfig
  deriving DecidableEq, Repr

/-- One line of an ID mapping (`idtools.IDMap`). -/
structure IDMap where
  ContainerID : Int
  HostID : Int
  Size : Int
  deriving DecidableEq, Repr

/-- The record `storage.IDMappingOptions`. -/
structure IDMappingOptions where
  HostUIDMapping : Bool
  HostGIDMapping : Bool
  UIDMap : List IDMap
  GIDMap : List IDMap
  deriving DecidableEq, Repr

/-- One host binding of a port (`nat.PortBinding`). -/
structure PortBinding where
  HostIP : String
  HostPort : String
  deriving DecidableEq, Repr

/-- A Go `map[nat.Port][]nat.PortBinding`. -/
abbrev PortMap := List (String × List PortBinding)

/-- The record `cc.CreateResourceConfig`. -/
structure CreateResourceConfig where
  BlkioWeight : Nat
  BlkioWeightDevice : List String
  CPUShares : Nat
  CPUPeriod : Nat
  CPUsetCPUs : String
  CPUsetMems : String
  CPUQuota : Int
  CPURtPeriod : Nat
  CPURtRuntime : Int
  CPUs : Rat
  DeviceReadBps : List String
  DeviceReadIOps : List String
  DeviceWriteBps : List String
  DeviceWriteIOps : List String
  DisableOomKiller : Bool
  ShmSize : Int
  Memory : Int
  MemoryReservation : Int
  MemorySwap : Int
  MemorySwappiness : Int
  KernelMemory : Int
  OomScoreAdj : Int
  PidsLimit : Int
  Ulimit : List String

/-- The record `cc.CreateConfig`. The fields that the struct literal of `parseCreateOpts` leaves
out (`ProcessLabel`, `MountLabel`, `SeccompProfilePath`, `ApparmorProfile`, `NoNewPrivs`,
`SecurityOpts`) start at their zero value. -/
structure CreateConfig where
  Runtime : Runtime
  BuiltinImgVolumes : List String
  ConmonPidFile : String
  ImageVolumeType : String
  CapAdd : List String
  CapDrop : List String
  CgroupParent : String
  Command : List String
  Detach : Bool
  Devices : List String
  DNSOpt : List String
  DNSSearch : List String
  DNSServers : List String
  Entrypoint : List String
  Env : StrMap
  GroupAdd : List String
  Hostname : String
  HostAdd : List String
  IDMappings : IDMappingOptions
  Image : String
  ImageID : String
  Interactive : Bool
  IP6Address : String
  IPAddress : String
  Labels : StrMap
  LinkLocalIP : List String
  LogDriver : String
  LogDriverOpt : List String
  MacAddress : String
  Name : String
  Network : String
  NetworkAlias : List String
  IpcMode : String
  NetMode : String
  UtsMode : String
  PidMode : String
  Pod : String
  Privileged : Bool
  Publish : List String
  PublishAll : Bool
  PortBindings : PortMap
  Quiet : Bool
  ReadOnlyRootfs : Bool
  Resources : CreateResourceConfig
  Rm : Bool
  ShmDir : String
  StopSignal : Nat
  StopTimeout : Nat
  Sysctl : StrMap
  Tmpfs : List String
  Tty : Bool
  User : String
  UsernsMode : String
  Volumes : List String
  WorkDir : String
  ProcessLabel : String := ""
  MountLabel : String := ""
  SeccompProfilePath : String := ""
  ApparmorProfile : String := ""
  NoNewPrivs : Bool := false
  SecurityOpts : List String := []

/-- Everything `create.go` uses without defining it: functions of other packages and files,
the two seccomp profile paths, the `%q` verb of `fmt`, and the file system as `os.Stat` sees it. -/
structure Externals where
  /-- The `%q` verb: the quoted form of a string (`strconv.Quote`). -/
  quote : String → String
  /-- The call `util.ParseIDMapping(uidmap, gidmap, subuidname, subgidname)`. -/
  ParseIDMapping : List String → List String → String → String → Except String IDMappingOptions
  validateSysctl : List String → Except String StrMap
  /-- The call `units.RAMInBytes`. -/
  RAMInBytes : String → Except String Int
  /-- The call `units.FromHumanSize`. -/
  FromHumanSize : String → Except String Int
  /-- The call `strconv.ParseUint(s, base, bitSize)`. -/
  ParseUint : String → Nat → Nat → Except String Nat
  /-- The call `parseVolumes`: `none` is the `nil` error. -/
  parseVolumes : List String → Option String
  pidValid : String → Bool
  pidIsHost : String → Bool
  pidIsContainer : String → Bool
  pidContainer : String → String
  usernsValid : String → Bool
  utsValid : String → Bool
  ipcValid : String → Bool
  ipcIsHost : String → Bool
  ipcIsContainer : String → Bool
  ipcContainer : String → String
  /-- The call `signal.ParseSignal`. -/
  ParseSignal : String → Except String Nat
  /-- The call `readKVStrings(env, files, override)`: the map as the call leaves it, and its
  error (`none` is `nil`). -/
  readKVStrings : StrMap → List String → List String → StrMap × Option String
  getAllLabels : List String → List String → Except String StrMap
  /-- The call `cc.ExposedPorts(expose, publish, publishAll, imageExposedPorts)`. -/
  ExposedPorts : List String → List String → Bool → List String → Except String PortMap
  validateExtraHost : String → Except String String
  validateDomain : String → Except String String
  /-- The call `util.StringInSlice(s, sl)`. -/
  StringInSlice : String → List String → Bool
  /-- The call `verifyContainerResources(config, update)` with its results: warnings or error. -/
  verifyContainerResources : CreateConfig → Bool → Except String (List String)
  /-- The call `label.DisableSecOpt()`. -/
  DisableSecOpt : List String
  /-- The call `label.DupSecOpt(src)`. -/
  DupSecOpt : String → List String
  /-- The call `label.InitLabels(options)`: process label, mount label, error. -/
  InitLabels : List String → String × String × Option String
  SeccompOverridePath : String
  SeccompDefaultPath : String
  /-- The call `os.Stat(path)`, by outcome. -/
  stat : String → StatResult

/-- The signal number `syscall.SIGTERM`. -/
def SIGTERM : Nat := 15

/-! ## `parseSecurityOpt` -/

/-- Lines 151-159 of `parseSecurityOpt`: the label options contributed by the PID mode. -/
def pidLabelOpts (E : Externals) (config : CreateConfig) (labelOpts : List String) :
    Except String (List String) :=
  if E.pidIsHost config.PidMode then
    .ok (labelOpts ++ E.DisableSecOpt)
  else if E.pidIsContainer config.PidMode then
    match config.Runtime.LookupContainer (E.pidContainer config.PidMode) with
    | .error err =>
      .error (Wrapf err ("container " ++ E.quote (E.pidContainer config.PidMode) ++ " not found"))
    | .ok ctr => .ok (labelOpts ++ E.DupSecOpt ctr.ProcessLabel)
  else
    .ok labelOpts

/-- Lines 161-169 of `parseSecurityOpt`: the label options contributed by the IPC mode. -/
def ipcLabelOpts (E : Externals) (config : CreateConfig) (labelOpts : List String) :
    Except String (List String) :=
  if E.ipcIsHost config.IpcMode then
    .ok (labelOpts ++ E.DisableSecOpt)
  else if E.ipcIsContainer config.IpcMode then
    match config.Runtime.LookupContainer (E.ipcContainer config.IpcMode) with
    | .error err =>
      .error (Wrapf err ("container " ++ E.quote (E.ipcContainer config.IpcMode) ++ " not found"))
    | .ok ctr => .ok (labelOpts ++ E.DupSecOpt ctr.ProcessLabel)
  else
    .ok labelOpts

/-- Lines 171-191 of `parseSecurityOpt`: the loop over the security options. It returns the
configuration and the label options as the loop leaves them, and the error of an early return. -/
def securityOptLoop (E : Externals) :
    List String → CreateConfig → List String → CreateConfig × List String × Option String
  | [], config, labelOpts => (config, labelOpts, none)
  | opt :: rest, config, labelOpts =>
    if opt = "no-new-privileges" then
      securityOptLoop E rest { config with NoNewPrivs := true } labelOpts
    else
      match splitN2 opt '=' with
      | [key, val] =>
        if key = "label" then
          securityOptLoop E rest config (labelOpts ++ [val])
        else if key = "apparmor" then
          securityOptLoop E rest { config with ApparmorProfile := val } labelOpts
        else if key = "seccomp" then
          securityOptLoop E rest { config with SeccompProfilePath := val } labelOpts
        else
          (config, labelOpts, some ("Invalid --security-opt 2: " ++ E.quote opt))
      | _ => (config, labelOpts, some ("Invalid --security-opt 1: " ++ E.quote opt))

/-- Lines 193-208 of `parseSecurityOpt`: the default of the seccomp profile path. -/
def seccompDefault (E : Externals) (config : CreateConfig) : CreateConfig × Option String :=
  if config.SeccompProfilePath = "" then
    match E.stat E.SeccompOverridePath with
    | .present => ({ config with SeccompProfilePath := E.SeccompOverridePath }, none)
    | .otherError err =>
      (config, some (Wrapf err ("can't check if " ++ E.quote E.SeccompOverridePath ++ " exists")))
    | .notExist =>
      match E.stat E.SeccompDefaultPath with
      | .present => ({ config with SeccompProfilePath := E.SeccompDefaultPath }, none)
      | .notExist => (config, none)
      | .otherError err =>
        (config, some (Wrapf err ("can't check if " ++ E.quote E.SeccompDefaultPath ++ " exists")))
  else
    (config, none)

/-- The function `parseSecurityOpt(config, securityOpts)`: the configuration as the call leaves
it and the returned error (`none` is `nil`). -/
def parseSecurityOpt (E : Externals) (config : CreateConfig) (securityOpts : List String) :
    CreateConfig × Option String :=
  match pidLabelOpts E config [] with
  | .error err => (config, some err)
  | .ok labelOpts =>
    match ipcLabelOpts E config labelOpts with
    | .error err => (config, some err)
    | .ok labelOpts =>
      match securityOptLoop E securityOpts config labelOpts with
      | (config, _, some err) => (config, some err)
      | (config, labelOpts, none) =>
        match seccompDefault E config with
        | (config, some err) => (config, some err)
        | (config, none) =>
          match E.InitLabels labelOpts with
          | (processLabel, mountLabel, err) =>
            ({ config with ProcessLabel := processLabel, MountLabel := mountLabel }, err)

/-! ## `parseCreateOpts` -/

/-- What lines 243-293 of `parseCreateOpts` compute. -/
structure Limits where
  idmappings : IDMappingOptions
  sysctl : StrMap
  memoryLimit : Int
  memoryReservation : Int
  memorySwap : Int
  memoryKernel : Int
  blkioWeight : Nat

/-- What lines 295-353 of `parseCreateOpts` compute. -/
structure Modes where
  tty : Bool
  pidMode : String
  usernsMode : String
  utsMode : String
  ipcMode : String
  shmDir : String
  user : String
  stopSignal : Nat

/-- One of the four blocks of lines 259-282, for the flag `flag` (`memory`,
`memory-reservation`, `memory-swap`, `kernel-memory`): the variable starts at `0` and is
assigned from `units.RAMInBytes` only when the flag value is not empty. -/
def memoryField (E : Externals) (c : Context) (flag : String) : Except String Int :=
  if c.string flag ≠ "" then
    wrapErr (E.RAMInBytes (c.string flag)) ("invalid value for " ++ flag)
  else
    .ok 0

/-- Lines 283-289: the block I/O weight, `0` when the flag value is empty. -/
def blkioWeightField (E : Externals) (c : Context) : Except String Nat :=
  if c.string "blkio-weight" ≠ "" then
    match E.ParseUint (c.string "blkio-weight") 10 16 with
    | .error err => .error (Wrapf err "invalid value for blkio-weight")
    | .ok u => .ok (u % 2 ^ 16)
  else
    .ok 0

/-- Lines 243-293 of `parseCreateOpts`: ID mappings, sysctls, memory sizes, block I/O weight
and volumes. -/
def parseLimits (E : Externals) (c : Context) : Except String Limits := do
  let idmappings ← E.ParseIDMapping (c.stringSlice "uidmap") (c.stringSlice "gidmap")
    (c.string "subuidname") (c.string "subgidname")
  let sysctl ← wrapErr (E.validateSysctl (c.stringSlice "sysctl")) "invalid value for sysctl"
  let memoryLimit ← memoryField E c "memory"
  let memoryReservation ← memoryField E c "memory-reservation"
  let memorySwap ← memoryField E c "memory-swap"
  let memoryKernel ← memoryField E c "kernel-memory"
  let blkioWeight ← blkioWeightField E c
  match E.parseVolumes (c.stringSlice "volume") with
  | some err => .error err
  | none =>
    .ok { idmappings := idmappings, sysctl := sysctl, memoryLimit := memoryLimit,
          memoryReservation := memoryReservation, memorySwap := memorySwap,
          memoryKernel := memoryKernel, blkioWeight := blkioWeight }

/-- Lines 307-309: `--rm` and `--detach` exclude each other. -/
def checkDetachRm (c : Context) : Except String Unit :=
  if c.bool "detach" && c.bool "rm" then
    .error "--rm and --detach can not be specified together"
  else
    .ok ()

/-- Lines 310-312: a CPU period and a CPU count exclude each other. -/
def checkCpuPeriod (c : Context) : Except String Unit :=
  if c.int64 "cpu-period" ≠ 0 ∧ c.float64 "cpus" > 0 then
    .error "--cpu-period and --cpus cannot be set together"
  else
    .ok ()

/-- Lines 313-315: a CPU quota and a CPU count exclude each other. -/
def checkCpuQuota (c : Context) : Except String Unit :=
  if c.int64 "cpu-quota" ≠ 0 ∧ c.float64 "cpus" > 0 then
    .error "--cpu-quota and --cpus cannot be set together"
  else
    .ok ()

/-- Lines 325-334: the shared-memory directory that follows from the IPC mode. -/
def resolveShmDir (E : Externals) (runtime : Runtime) (ipcMode : String) : Except String String :=
  if E.ipcIsHost ipcMode then
    .ok "/dev/shm"
  else if E.ipcIsContainer ipcMode then
    match runtime.LookupContainer (E.ipcContainer ipcMode) with
    | .error err =>
      .error (Wrapf err ("container " ++ E.quote (E.ipcContainer ipcMode) ++ " not found"))
    | .ok ctr => .ok ctr.ShmDir
  else
    .ok ""

/-- Lines 342-353: the stop signal, `SIGTERM` unless the flag or the image names one. -/
def resolveStopSignal (E : Externals) (c : Context) (data : ImageData) : Except String Nat :=
  let signalString :=
    if c.isSet "stop-signal" then c.string "stop-signal" else data.ContainerConfig.StopSignal
  if signalString ≠ "" then E.ParseSignal signalString else .ok SIGTERM

/-- Lines 295-353 of `parseCreateOpts`: namespace modes, the exclusion checks, the
shared-memory directory, the user and the stop signal. -/
def parseModes (E : Externals) (c : Context) (runtime : Runtime) (data : ImageData) :
    Except String Modes := do
  let tty := c.bool "tty"
  let pidMode := c.string "pid"
  if !E.pidValid pidMode then
    throw ("--pid " ++ E.quote (c.string "pid") ++ " is not valid")
  let usernsMode := c.string "userns"
  if !E.usernsValid usernsMode then
    throw ("--userns " ++ E.quote (c.string "userns") ++ " is not valid")
  checkDetachRm c
  checkCpuPeriod c
  checkCpuQuota c
  let utsMode := c.string "uts"
  if !E.utsValid utsMode then
    throw ("--uts " ++ E.quote (c.string "uts") ++ " is not valid")
  let ipcMode := c.string "ipc"
  if !E.ipcValid ipcMode then
    throw ("--ipc " ++ E.quote ipcMode ++ " is not valid")
  let shmDir ← resolveShmDir E runtime ipcMode
  let user := if c.string "user" = "" then data.ContainerConfig.User else c.string "user"
  let stopSignal ← resolveStopSignal E c data
  pure { tty := tty, pidMode := pidMode, usernsMode := usernsMode, utsMode := utsMode,
         ipcMode := ipcMode, shmDir := shmDir, user := user, stopSignal := stopSignal }

/-- Lines 357-364: the image environment entries written into the table `env`. -/
def mergeImageEnv (env : StrMap) : List String → StrMap
  | [] => env
  | e :: rest =>
    let split := splitN2 e '='
    if split.length > 1 then
      mergeImageEnv (env.set (split.getD 0 "") (split.getD 1 "")) rest
    else
      mergeImageEnv (env.set (split.getD 0 "") "") rest

/-- Lines 374-378: the image labels whose key the command line does not define. -/
def mergeImageLabels (labels : StrMap) : StrMap → StrMap
  | [] => labels
  | (key, val) :: rest =>
    if !labels.has key then
      mergeImageLabels (labels.set key val) rest
    else
      mergeImageLabels labels rest

/-- Lines 380-386: the working directory. -/
def resolveWorkDir (c : Context) (data : ImageData) : String :=
  if c.isSet "workdir" then
    c.string "workdir"
  else if data.ContainerConfig.WorkingDir ≠ "" then
    data.ContainerConfig.WorkingDir
  else
    "/"

/-- Lines 250-252: the positional arguments after the image name. -/
def inputCommand (c : Context) : List String :=
  if c.args.length > 1 then c.args.drop 1 else []

/-- Lines 390-397: the entrypoint. -/
def resolveEntrypoint (c : Context) (data : ImageData) : List String :=
  let entrypoint := c.stringSlice "entrypoint"
  let entrypoint :=
    if entrypoint.length = 0 then data.ContainerConfig.Entrypoint else entrypoint
  if entrypoint.length = 1 && c.isSet "entrypoint"
      && joinEmpty (c.stringSlice "entrypoint") = "" then
    []
  else
    entrypoint

/-- Lines 398-409: the command. -/
def resolveCommand (c : Context) (data : ImageData) : List String :=
  let entrypoint := resolveEntrypoint c data
  let command : List String := if entrypoint.length > 0 then entrypoint else []
  if (inputCommand c).length > 0 then
    command ++ inputCommand c
  else if data.ContainerConfig.Cmd.length > 0 && !c.isSet "entrypoint" then
    command ++ data.ContainerConfig.Cmd
  else
    command

/-- The message of line 412. -/
def noCommandError : String :=
  "No command specified on command line or as CMD or ENTRYPOINT in this image"

/-- The loops of lines 439-443 and 451-455: the first error of `validate` over `xs`. -/
def validateEach (validate : String → Except String String) : List String → Except String Unit
  | [] => .ok ()
  | x :: rest =>
    match validate x with
    | .error err => .error err
    | .ok _ => validateEach validate rest

/-- Lines 467-550 of `parseCreateOpts`: the struct literal, over the local variables it reads. -/
def newCreateConfig (c : Context) (runtime : Runtime) (imageName : String) (data : ImageData)
    (l : Limits) (m : Modes) (env : StrMap) (labels : StrMap) (workDir : String)
    (entrypoint : List String) (command : List String) (portBindings : PortMap) (shmSize : Int)
    (networkMode : String) : CreateConfig :=
  { Runtime := runtime
    BuiltinImgVolumes := data.ContainerConfig.Volumes
    ConmonPidFile := c.string "conmon-pidfile"
    ImageVolumeType := c.string "image-volume"
    CapAdd := c.stringSlice "cap-add"
    CapDrop := c.stringSlice "cap-drop"
    CgroupParent := c.string "cgroup-parent"
    Command := command
    Detach := c.bool "detach"
    Devices := c.stringSlice "device"
    DNSOpt := c.stringSlice "dns-opt"
    DNSSearch := c.stringSlice "dns-search"
    DNSServers := c.stringSlice "dns"
    Entrypoint := entrypoint
    Env := env
    GroupAdd := c.stringSlice "group-add"
    Hostname := c.string "hostname"
    HostAdd := c.stringSlice "add-host"
    IDMappings := l.idmappings
    Image := imageName
    ImageID := data.ID
    Interactive := c.bool "interactive"
    IP6Address := c.string "ipv6"
    IPAddress := c.string "ip"
    Labels := labels
    LinkLocalIP := c.stringSlice "link-local-ip"
    LogDriver := c.string "log-driver"
    LogDriverOpt := c.stringSlice "log-opt"
    MacAddress := c.string "mac-address"
    Name := c.string "name"
    Network := networkMode
    NetworkAlias := c.stringSlice "network-alias"
    IpcMode := m.ipcMode
    NetMode := networkMode
    UtsMode := m.utsMode
    PidMode := m.pidMode
    Pod := c.string "pod"
    Privileged := c.bool "privileged"
    Publish := c.stringSlice "publish"
    PublishAll := c.bool "publish-all"
    PortBindings := portBindings
    Quiet := c.bool "quiet"
    ReadOnlyRootfs := c.bool "read-only"
    Resources := {
      BlkioWeight := l.blkioWeight
      BlkioWeightDevice := c.stringSlice "blkio-weight-device"
      CPUShares := c.uint64 "cpu-shares"
      CPUPeriod := c.uint64 "cpu-period"
      CPUsetCPUs := c.string "cpuset-cpus"
      CPUsetMems := c.string "cpuset-mems"
      CPUQuota := c.int64 "cpu-quota"
      CPURtPeriod := c.uint64 "cpu-rt-period"
      CPURtRuntime := c.int64 "cpu-rt-runtime"
      CPUs := c.float64 "cpus"
      DeviceReadBps := c.stringSlice "device-read-bps"
      DeviceReadIOps := c.stringSlice "device-read-iops"
      DeviceWriteBps := c.stringSlice "device-write-bps"
      DeviceWriteIOps := c.stringSlice "device-write-iops"
      DisableOomKiller := c.bool "oom-kill-disable"
      ShmSize := shmSize
      Memory := l.memoryLimit
      MemoryReservation := l.memoryReservation
      MemorySwap := l.memorySwap
      MemorySwappiness := c.int "memory-swappiness"
      KernelMemory := l.memoryKernel
      OomScoreAdj := c.int "oom-score-adj"
      PidsLimit := c.int64 "pids-limit"
      Ulimit := c.stringSlice "ulimit" }
    Rm := c.bool "rm"
    ShmDir := m.shmDir
    StopSignal := m.stopSignal
    StopTimeout := c.uint "stop-timeout"
    Sysctl := l.sysctl
    Tmpfs := c.stringSlice "tmpfs"
    Tty := m.tty
    User := m.user
    UsernsMode := m.usernsMode
    Volumes := c.stringSlice "volume"
    WorkDir := workDir }

/-- Lines 369-550 of `parseCreateOpts`: labels, working directory, command, ports, shared-memory
size, network, hosts, DNS and image volumes, then the struct literal (`newCreateConfig`). -/
def assembleConfig (E : Externals) (c : Context) (runtime : Runtime) (imageName : String)
    (data : ImageData) (l : Limits) (m : Modes) (env : StrMap) : Except String CreateConfig := do
  let labels ← wrapErr (E.getAllLabels (c.stringSlice "label-file") (c.stringSlice "label"))
    "unable to process labels"
  let labels := mergeImageLabels labels data.ContainerConfig.Labels
  let workDir := resolveWorkDir c data
  let entrypoint := resolveEntrypoint c data
  let command := resolveCommand c data
  if command.length = 0 then
    throw noCommandError
  let portBindings ← E.ExposedPorts (c.stringSlice "expose") (c.stringSlice "publish")
    (c.bool "publish-all") data.ContainerConfig.ExposedPorts
  let shmSize ← wrapErr (E.FromHumanSize (c.string "shm-size")) "unable to translate --shm-size"
  if c.isSet "network" && c.isSet "net" then
    throw "cannot use --network and --net together.  use only --network instead"
  let networkMode :=
    if !c.isSet "network" && c.isSet "net" then c.string "net" else c.string "network"
  validateEach E.validateExtraHost (c.stringSlice "add-host")
  if E.StringInSlice "." (c.stringSlice "dns-search")
      && (c.stringSlice "dns-search").length > 1 then
    throw "cannot pass additional search domains when also specifying '.'"
  validateEach E.validateDomain (c.stringSlice "dns-search")
  if !(["bind", "tmpfs", "ignore"].contains (c.string "image-volume")) then
    throw ("invalid image-volume type " ++ E.quote (c.string "image-volume")
      ++ ". Pick one of bind, tmpfs, or ignore")
  pure (newCreateConfig c runtime imageName data l m env labels workDir entrypoint command
    portBindings shmSize networkMode)

/-- Lines 552-566 of `parseCreateOpts`: security options unless privileged, then the check of
the resource limits. -/
def finishConfig (E : Externals) (c : Context) (config : CreateConfig) :
    Except String CreateConfig :=
  let secured : CreateConfig × Option String :=
    if !config.Privileged then
      parseSecurityOpt E config (c.stringSlice "security-opt")
    else
      (config, none)
  match secured with
  | (_, some err) => .error err
  | (config, none) =>
    let config := { config with SecurityOpts := c.stringSlice "security-opt" }
    match E.verifyContainerResources config false with
    | .error err => .error err
    | .ok _ => .ok config

/-- The function `parseCreateOpts(ctx, c, runtime, imageName, data)`, run with the shared table
`defaultEnvVariables`: the table as the call leaves it, and the configuration or the error.
The table is written only by lines 356-365; a return before them leaves it as it was. -/
def parseCreateOpts (E : Externals) (c : Context) (runtime : Runtime) (imageName : String)
    (data : ImageData) (defaultEnvVariables : StrMap) : StrMap × Except String CreateConfig :=
  match parseLimits E c with
  | .error err => (defaultEnvVariables, .error err)
  | .ok l =>
    match parseModes E c runtime data with
    | .error err => (defaultEnvVariables, .error err)
    | .ok m =>
      let env := mergeImageEnv defaultEnvVariables data.ContainerConfig.Env
      match E.readKVStrings env (c.stringSlice "env-file") (c.stringSlice "env") with
      | (env, some err) =>
        (env, .error (Wrapf err "unable to process environment variables"))
      | (env, none) =>
        match assembleConfig E c runtime imageName data l m env with
        | .error err => (env, .error err)
        | .ok config => (env, finishConfig E c config)

/-- The initial value of the package variable `defaultEnvVariables` (lines 29-34). -/
def defaultEnvVariables : StrMap :=
  [("PATH", "/usr/local/sbin:/usr/local/bin:/usr/sbin:/usr/bin:/sbin:/bin"), ("TERM", "xterm")]

/-! ## Size strings -/

/-- The value of a run of decimal digits. -/
def digitsValue (digits : List Char) : Nat :=
  digits.foldl (fun n d => 10 * n + (d.toNat - '0'.toNat)) 0

/-- The power of the unit base that a unit letter stands for. -/
def unitExponent : Char → Option Nat
  | 'k' | 'K' => some 1
  | 'm' | 'M' => some 2
  | 'g' | 'G' => some 3
  | 't' | 'T' => some 4
  | 'p' | 'P' => some 5
  | _ => none

/-- Drop one leading character when it satisfies `p`. -/
def dropOptional (p : Char → Bool) : List Char → List Char
  | [] => []
  | ch :: rest => if p ch then rest else ch :: rest

/-- A size string read with unit base `base`: decimal digits, an optional blank, an optional
unit letter (`k`, `m`, `g`, `t`, `p`, either case), an optional `i`, an optional `b`. -/
def parseSize (base : Nat) (s : String) : Except String Int :=
  let digits := s.toList.takeWhile Char.isDigit
  let rest := dropOptional (fun ch => ch == ' ') (s.toList.dropWhile Char.isDigit)
  let exponent : Nat := (rest.head?.bind unitExponent).getD 0
  let rest := dropOptional (fun ch => (unitExponent ch).isSome) rest
  let rest := dropOptional (fun ch => ch == 'i' || ch == 'I') rest
  let rest := dropOptional (fun ch => ch == 'b' || ch == 'B') rest
  if digits = [] ∨ rest ≠ [] then
    .error ("invalid size: '" ++ s ++ "'")
  else
    .ok ((digitsValue digits * base ^ exponent : Nat) : Int)

/-- Modelled from the spec: `units.RAMInBytes` (package `go-units`) is called by
`parseCreateOpts` and is not among the sources. The spec has it parse "human-readable size
strings" into bytes with "256MiB" worth 268435456, that is under binary units: a unit letter
multiplies by a power of 1024. -/
def RAMInBytes (s : String) : Except String Int :=
  parseSize 1024 s

/-- Modelled from the spec: `units.FromHumanSize` (package `go-units`) is called by
`parseCreateOpts` and is not among the sources. The spec has the unit parsers "convert human
strings (memory sizes, ...) into typed values": a size string is a number with an optional
unit, here under decimal units, and a string without digits is not a size. -/
def FromHumanSize (s : String) : Except String Int :=
  parseSize 1000 s

/-! ## Concrete inputs

A stand-in for each external and a table-driven `cli.Context`, to run the embedding on
concrete requests. -/

/-- A `cli.Context` given by the positional arguments, the string flags, the string-slice
flags, the boolean flags that are true, and the names of the flags that are set. -/
def flagContext (args : List String) (strings : StrMap) (slices : List (String × List String))
    (bools : List String) (set : List String) : Context where
  args := args
  string := fun name => (StrMap.get? strings name).getD ""
  stringSlice := fun name => ((slices.find? (fun kv => kv.1 == name)).map (fun kv => kv.2)).getD []
  bool := fun name => bools.contains name
  int := fun _ => 0
  int64 := fun _ => 0
  uint := fun _ => 0
  uint64 := fun _ => 0
  float64 := fun _ => 0
  isSet := fun name => set.contains name

/-- A namespace mode is valid when empty, `host`, or `container:<id>` with `<id>` not empty. -/
def sampleModeValid (mode : String) : Bool :=
  mode == "" || mode == "host" ||
    (match splitN2 mode ':' with
     | [kind, name] => kind == "container" && name != ""
     | _ => false)

/-- Whether a namespace mode is `container:<id>`. -/
def sampleModeIsContainer (mode : String) : Bool :=
  match splitN2 mode ':' with
  | [kind, _] => kind == "container"
  | _ => false

/-- The `<id>` of `container:<id>`. -/
def sampleModeContainer (mode : String) : String :=
  match splitN2 mode ':' with
  | [_, name] => name
  | _ => ""

/-- Stand-ins for the externals: every validation accepts, sizes follow `parseSize`, the
only seccomp profile that exists is the default one, and `host` disables labelling. -/
def sampleExternals : Externals where
  quote := fun s => "\"" ++ s ++ "\""
  ParseIDMapping := fun _ _ _ _ =>
    .ok { HostUIDMapping := true, HostGIDMapping := true, UIDMap := [], GIDMap := [] }
  validateSysctl := fun _ => .ok []
  RAMInBytes := RAMInBytes
  FromHumanSize := FromHumanSize
  ParseUint := fun s _ _ =>
    if s.toList ≠ [] ∧ s.toList.all Char.isDigit then .ok (digitsValue s.toList)
    else .error "invalid syntax"
  parseVolumes := fun _ => none
  pidValid := sampleModeValid
  pidIsHost := fun mode => mode == "host"
  pidIsContainer := sampleModeIsContainer
  pidContainer := sampleModeContainer
  usernsValid := fun mode => mode == "" || mode == "host"
  utsValid := fun mode => mode == "" || mode == "host"
  ipcValid := sampleModeValid
  ipcIsHost := fun mode => mode == "host"
  ipcIsContainer := sampleModeIsContainer
  ipcContainer := sampleModeContainer
  ParseSignal := fun s => if s == "SIGKILL" then .ok 9 else .ok 15
  readKVStrings := fun env _ override => (mergeImageEnv env override, none)
  getAllLabels := fun _ override => .ok (mergeImageEnv [] override)
  ExposedPorts := fun _ _ _ _ => .ok []
  validateExtraHost := fun host => .ok host
  validateDomain := fun dom => .ok dom
  StringInSlice := fun s sl => sl.contains s
  verifyContainerResources := fun _ _ => .ok []
  DisableSecOpt := ["disable"]
  DupSecOpt := fun src => [src]
  InitLabels := fun opts =>
    if opts.contains "disable" then ("", "", none)
    else ("system_u:system_r:container_t:s0", "system_u:object_r:container_file_t:s0", none)
  SeccompOverridePath := "/etc/crio/seccomp.json"
  SeccompDefaultPath := "/usr/share/containers/seccomp.json"
  stat := fun path =>
    if path == "/usr/share/containers/seccomp.json" then .present else .notExist

/-- A registry with no container. -/
def emptyRuntime : Runtime where
  LookupContainer := fun name => .error ("no container with name or ID " ++ name ++ " found")

/-- The image of the spec's command examples: entrypoint `/bin/sh`, CMD `-c "echo hi"`. -/
def shImage : ImageData where
  ID := "3fd9065eaf02"
  ContainerConfig := {
    User := ""
    StopSignal := ""
    Env := ["PATH=/usr/bin:/bin"]
    Labels := []
    WorkingDir := ""
    Entrypoint := ["/bin/sh"]
    Cmd := ["-c", "echo hi"]
    ExposedPorts := []
    Volumes := [] }

/-- The flags every sample request carries: the defaults of `--shm-size`, `--image-volume`
and `--network`. -/
def baseStrings : StrMap :=
  [("shm-size", "65536k"), ("image-volume", "bind"), ("network", "bridge")]

/-- A configuration with the fields written by `parseSecurityOpt` and by line 557 put back to
their zero value: two configurations agree outside those fields when their images agree. -/
def withoutSecurity (config : CreateConfig) : CreateConfig :=
  { config with ProcessLabel := "", MountLabel := "", SeccompProfilePath := "",
                ApparmorProfile := "", NoNewPrivs := false, SecurityOpts := [] }

/-- Sample request: the spec's image and no flag beyond the defaults. -/
def plainRequest : Context :=
  flagContext ["alpine"] baseStrings [] [] []

/-- Sample request: `--entrypoint ""` and the command `date`. -/
def clearedRequest : Context :=
  flagContext ["alpine", "date"] baseStrings [("entrypoint", [""])] [] ["entrypoint"]

/-- Sample request: `--entrypoint /bin/echo` and no command. -/
def echoRequest : Context :=
  flagContext ["alpine"] baseStrings [("entrypoint", ["/bin/echo"])] [] ["entrypoint"]

/-- Sample request: `--entrypoint ""` and no command. -/
def clearedOnlyRequest : Context :=
  flagContext ["alpine"] baseStrings [("entrypoint", [""])] [] ["entrypoint"]

/-- Sample request: `--privileged` with security options, one of them malformed. -/
def privilegedRequest : Context :=
  flagContext ["alpine"] baseStrings
    [("security-opt", ["bogus", "no-new-privileges", "seccomp=/tmp/profile.json"])]
    ["privileged"] ["privileged", "security-opt"]

/-- Sample request: `--privileged --security-opt no-new-privileges`. -/
def privilegedNoNewPrivsRequest : Context :=
  flagContext ["alpine"] baseStrings [("security-opt", ["no-new-privileges"])]
    ["privileged"] ["privileged", "security-opt"]

/-- Sample request: `--security-opt label=level:s0 --security-opt no-new-privileges`. -/
def noNewPrivsRequest : Context :=
  flagContext ["alpine"] baseStrings [("security-opt", ["label=level:s0", "no-new-privileges"])]
    [] ["security-opt"]

/-! ## The security options in the spec's words -/

/-- The text of an option after its first `=` (empty when it has none). -/
def afterFirstEq (opt : String) : String :=
  String.mk ((opt.toList.dropWhile (fun ch => ch != '=')).drop 1)

/-- The text of an option before its first `=` (all of it when it has none). -/
def keyOf (opt : String) : String :=
  String.mk (opt.toList.takeWhile (fun ch => ch != '='))

/-- Whether an option has the form `key=<v>`. -/
def hasKey (key : String) (opt : String) : Bool :=
  (key.toList ++ ['=']).isPrefixOf opt.toList

/-- An option the spec accepts: the bare token `no-new-privileges`, or `key=<v>` with `key` one
of `label`, `apparmor`, `seccomp`. -/
def acceptedOption (opt : String) : Bool :=
  opt == "no-new-privileges" || hasKey "label" opt || hasKey "apparmor" opt
    || hasKey "seccomp" opt

/-- The error of lines 177 and 188 for the option `opt`: message 1 when the option has no `=`,
message 2 otherwise, each followed by the option under `%q`. -/
def securityOptError (E : Externals) (opt : String) : String :=
  if '=' ∈ opt.toList then "Invalid --security-opt 2: " ++ E.quote opt
  else "Invalid --security-opt 1: " ++ E.quote opt

/-- The value that the options `key=<v>` of a list give a profile field: the text after the
first `=` of the last such option, and `init` when there is none. -/
def lastProfileValue (key : String) (init : String) : List String → String
  | [] => init
  | opt :: rest =>
    if hasKey key opt then lastProfileValue key (afterFirstEq opt) rest
    else lastProfileValue key init rest

/-- Sample security options: a seccomp profile whose path holds a `=`, then a malformed
option, then an unknown key. -/
def sampleSecurityOpts : List String :=
  ["seccomp=/etc/a=b.json", "no-new-privileges", "bogus", "selinux=off"]

/-- The configuration that the struct literal yields for `plainRequest`. -/
def plainConfig : CreateConfig :=
  newCreateConfig plainRequest emptyRuntime "alpine" shImage
    { idmappings := { HostUIDMapping := true, HostGIDMapping := true, UIDMap := [], GIDMap := [] },
      sysctl := [], memoryLimit := 0, memoryReservation := 0, memorySwap := 0,
      memoryKernel := 0, blkioWeight := 0 }
    { tty := false, pidMode := "", usernsMode := "", utsMode := "", ipcMode := "",
      shmDir := "", user := "", stopSignal := SIGTERM }
    defaultEnvVariables [] "/" ["/bin/sh"] ["/bin/sh", "-c", "echo hi"] [] 65536000 "bridge"

/-- Sample security options that are all accepted; the seccomp path holds a `=`. -/
def acceptedSecurityOpts : List String :=
  ["seccomp=/etc/a=b.json", "no-new-privileges", "apparmor=docker-default", "label=type:svirt_t"]

/-- Sample request: `--cpu-period 100000 --cpus 1.5`. -/
def cpuPeriodRequest : Context :=
  { plainRequest with
    int64 := fun name => if name = "cpu-period" then 100000 else 0
    float64 := fun name => if name = "cpus" then 3 / 2 else 0 }

/-- Sample request: `--cpu-quota 50000 --cpus 1.5`. -/
def cpuQuotaRequest : Context :=
  { plainRequest with
    int64 := fun name => if name = "cpu-quota" then 50000 else 0
    float64 := fun name => if name = "cpus" then 3 / 2 else 0 }

/-- Sample request: `--privileged --pid container:ghost`, for a registry without `ghost`. -/
def ghostPidPrivilegedRequest : Context :=
  flagContext ["alpine"] (("pid", "container:ghost") :: baseStrings) [] ["privileged"]
    ["pid", "privileged"]

/-- Sample request: `--pid container:ghost`. -/
def ghostPidRequest : Context :=
  flagContext ["alpine"] (("pid", "container:ghost") :: baseStrings) [] [] ["pid"]

/-- Sample request: `--privileged --ipc container:ghost`. -/
def ghostIpcRequest : Context :=
  flagContext ["alpine"] (("ipc", "container:ghost") :: baseStrings) [] ["privileged"]
    ["ipc", "privileged"]

/-- Sample request: `--uts bogus`. -/
def badUtsRequest : Context :=
  flagContext ["alpine"] (("uts", "bogus") :: baseStrings) [] [] ["uts"]

/-- Sample request: `--detach --rm`. -/
def detachRmRequest : Context :=
  flagContext ["alpine"] baseStrings [] ["detach", "rm"] ["detach", "rm"]

/-- Sample request: `--workdir /srv`. -/
def workdirRequest : Context :=
  flagContext ["alpine"] (("workdir", "/srv") :: baseStrings) [] [] ["workdir"]

/-- Sample image: working directory `/app` and an environment of its own. -/
def appImage : ImageData where
  ID := "8c811b4aec35"
  ContainerConfig := {
    User := ""
    StopSignal := ""
    Env := ["SECRET=hunter2", "DEBUG", "PATH=/app/bin"]
    Labels := []
    WorkingDir := "/app"
    Entrypoint := ["/app/run"]
    Cmd := []
    ExposedPorts := []
    Volumes := [] }

/-! ## The label components in the spec's words -/

/-- The label components a namespace mode contributes: the disable-isolation marker when the
mode is Host, the duplicate of the peer's process label when it is Container-mode (`peer` is
the outcome of the lookup of the peer), nothing otherwise. -/
def namespaceComponents (E : Externals) (isHost isContainer : Bool)
    (peer : Except String Container) : List String :=
  if isHost then E.DisableSecOpt
  else if isContainer then
    match peer with
    | .ok ctr => E.DupSecOpt ctr.ProcessLabel
    | .error _ => []
  else []

/-- The components derived from the PID mode of a configuration. -/
def pidComponents (E : Externals) (config : CreateConfig) : List String :=
  namespaceComponents E (E.pidIsHost config.PidMode) (E.pidIsContainer config.PidMode)
    (config.Runtime.LookupContainer (E.pidContainer config.PidMode))

/-- The components derived from the IPC mode of a configuration. -/
def ipcComponents (E : Externals) (config : CreateConfig) : List String :=
  namespaceComponents E (E.ipcIsHost config.IpcMode) (E.ipcIsContainer config.IpcMode)
    (config.Runtime.LookupContainer (E.ipcContainer config.IpcMode))

/-- The value of each `label=<v>` option of a list, in input order. -/
def labelValues (opts : List String) : List String :=
  opts.filterMap (fun opt => if hasKey "label" opt then some (afterFirstEq opt) else none)

/-- A registry with the single container `db`. -/
def dbRuntime : Runtime where
  LookupContainer := fun name =>
    if name == "db" then
      .ok { ProcessLabel := "system_u:system_r:container_t:s0:c1,c2", ShmDir := "/run/shm/db" }
    else
      .error ("no container with name or ID " ++ name ++ " found")

/-- A configuration with the PID mode `host` and the IPC mode `container:db`. -/
def sharedConfig : CreateConfig :=
  { plainConfig with Runtime := dbRuntime, PidMode := "host", IpcMode := "container:db" }

/-- Sample security options: two label options around the bare token. -/
def labelSecurityOpts : List String :=
  ["label=type:svirt_t", "no-new-privileges", "label=level:s0"]

/-! ## The environment table as a sequence of assignments -/

/-- The assignment `env[key] = val` that lines 358-363 make for one image environment
entry, as a pair. -/
def envAssignment (e : String) : String × String :=
  let split := splitN2 e '='
  if split.length > 1 then (split.getD 0 "", split.getD 1 "") else (split.getD 0 "", "")

/-- A sequence of assignments `m[key] = val`, made in order. -/
def applyWrites (m : StrMap) : List (String × String) → StrMap
  | [] => m
  | (key, val) :: rest => applyWrites (m.set key val) rest

/-- The call `readKVStrings(env, files, override)` with unchanged files and process
environment: whatever the table it is handed, it makes the assignments `writes` on it, in
order, and returns `err`. -/
def ReadsAsWrites (E : Externals) (files override : List String)
    (writes : List (String × String)) (err : Option String) : Prop :=
  ∀ env : StrMap, E.readKVStrings env files override = (applyWrites env writes, err)

/-- The value of an image environment entry in the spec's words: the text after its first
`=`, and the empty string for an entry without `=`. -/
def entryValue (e : String) : String :=
  if '=' ∈ e.toList then afterFirstEq e else ""

/-- The value that a list of image environment entries leaves for `key`: that of the last
entry whose key is `key`, and `init` (the value in the table before) when there is none. -/
def lastEntryValue (key : String) (init : Option String) : List String → Option String
  | [] => init
  | e :: rest =>
    if keyOf e = key then lastEntryValue key (some (entryValue e)) rest
    else lastEntryValue key init rest

/-- Sample request: no `--shm-size` value (the empty string). -/
def emptyShmRequest : Context :=
  flagContext ["alpine"] [("image-volume", "bind"), ("network", "bridge")] [] [] []

/-! ## Size strings in the spec's words -/

theorem securityOptLoop_frame (E : Externals) (opts : List String) :
    ∀ (config : CreateConfig) (labelOpts : List String),
      withoutSecurity (securityOptLoop E opts config labelOpts).1 = withoutSecurity config := by
  induction opts with
  | nil => intro config labelOpts; rfl
  | cons opt rest ih =>
    intro config labelOpts
    unfold securityOptLoop
    split
    · rw [ih]; rfl
    · split
      · split
        · rw [ih]
        · split
          · rw [ih]; rfl
          · split
            · rw [ih]; rfl
            · rfl
      · rfl

theorem seccompDefault_frame (E : Externals) (config : CreateConfig) :
    withoutSecurity (seccompDefault E config).1 = withoutSecurity config := by
  unfold seccompDefault
  split
  · split
    · rfl
    · rfl
    · split <;> rfl
  · rfl

theorem parseSecurityOpt_frame (E : Externals) (config : CreateConfig) (opts : List String) :
    withoutSecurity (parseSecurityOpt E config opts).1 = withoutSecurity config := by
  unfold parseSecurityOpt
  split
  · rfl
  · split
    · rfl
    · rename_i labelOpts0 _ labelOpts1 _
      have h1 := securityOptLoop_frame E opts config labelOpts1
      split
      · rename_i heq; rw [heq] at h1; exact h1
      · rename_i heq; rw [heq] at h1
        rename_i config1 _
        have h2 := seccompDefault_frame E config1
        split
        · rename_i heq2; rw [heq2] at h2; exact h2.trans h1
        · rename_i heq2; rw [heq2] at h2
          exact h2.trans h1

/-- A configuration that `assembleConfig` returns is the struct literal over the resolved
values, and its command is not empty. -/
theorem assembleConfig_ok {E : Externals} {c : Context} {runtime : Runtime} {imageName : String}
    {data : ImageData} {l : Limits} {m : Modes} {env : StrMap} {config : CreateConfig}
    (h : assembleConfig E c runtime imageName data l m env = .ok config) :
    resolveCommand c data ≠ [] ∧
    ∃ labels portBindings shmSize networkMode,
      config = newCreateConfig c runtime imageName data l m env labels (resolveWorkDir c data)
        (resolveEntrypoint c data) (resolveCommand c data) portBindings shmSize networkMode := by
  unfold assembleConfig at h
  simp only [bind, Except.bind, wrapErr] at h
  repeat' split at h
  all_goals first | contradiction | skip
  all_goals
    simp only [pure, Except.pure] at h
    injection h with h
    subst h
    refine ⟨?_, _, _, _, _, rfl⟩
    intro hc
    simp_all

/-- A configuration that `finishConfig` returns differs from the one it was given in the
security fields only. -/
theorem finishConfig_ok {E : Externals} {c : Context} {config0 config : CreateConfig}
    (h : finishConfig E c config0 = .ok config) :
    withoutSecurity config = withoutSecurity config0 := by
  unfold finishConfig at h
  have hframe : withoutSecurity
      (if (!config0.Privileged) = true then parseSecurityOpt E config0 (c.stringSlice "security-opt")
       else (config0, none)).1 = withoutSecurity config0 := by
    split
    · exact parseSecurityOpt_frame E config0 _
    · rfl
  dsimp only at h
  generalize (if (!config0.Privileged) = true then
      parseSecurityOpt E config0 (c.stringSlice "security-opt") else (config0, none)) = secured
    at h hframe
  obtain ⟨config1, err⟩ := secured
  cases err with
  | some e => simp at h
  | none =>
    dsimp only at h hframe
    split at h
    · contradiction
    · injection h with h
      subst h
      exact hframe

/-- The stages behind a successful `parseCreateOpts`. -/
theorem parseCreateOpts_ok {E : Externals} {c : Context} {runtime : Runtime} {imageName : String}
    {data : ImageData} {env : StrMap} {config : CreateConfig}
    (h : (parseCreateOpts E c runtime imageName data env).2 = .ok config) :
    ∃ l m env1 config0,
      parseLimits E c = .ok l ∧ parseModes E c runtime data = .ok m ∧
      E.readKVStrings (mergeImageEnv env data.ContainerConfig.Env) (c.stringSlice "env-file")
        (c.stringSlice "env") = (env1, none) ∧
      assembleConfig E c runtime imageName data l m env1 = .ok config0 ∧
      finishConfig E c config0 = .ok config := by
  unfold parseCreateOpts at h
  split at h
  · simp at h
  · split at h
    · simp at h
    · rename_i l hl _ m hm
      dsimp only at h
      split at h
      · simp at h
      · rename_i env1 hkv
        split at h
        · simp at h
        · rename_i config0 hcfg
          exact ⟨l, m, env1, config0, hl, hm, hkv, hcfg, h⟩

/-- The command and the entrypoint of a configuration that `parseCreateOpts` returns. -/
theorem parseCreateOpts_command {E : Externals} {c : Context} {runtime : Runtime}
    {imageName : String} {data : ImageData} {env : StrMap} {config : CreateConfig}
    (h : (parseCreateOpts E c runtime imageName data env).2 = .ok config) :
    config.Command = resolveCommand c data ∧ config.Entrypoint = resolveEntrypoint c data ∧
      resolveCommand c data ≠ [] := by
  obtain ⟨l, m, env1, config0, _, _, _, hcfg, hfin⟩ := parseCreateOpts_ok h
  obtain ⟨hne, labels, ports, shm, net, hlit⟩ := assembleConfig_ok hcfg
  have hframe := finishConfig_ok hfin
  subst hlit
  exact ⟨congrArg CreateConfig.Command hframe, congrArg CreateConfig.Entrypoint hframe, hne⟩

theorem inputCommand_eq (c : Context) : inputCommand c = c.args.drop 1 := by
  unfold inputCommand
  split
  · rfl
  · rename_i h
    symm
    apply List.drop_eq_nil_of_le
    omega

theorem length_pos_ite (xs : List String) : (if xs.length > 0 then xs else []) = xs := by
  cases xs <;> simp

/-- The command is the entrypoint followed by the positional arguments or, without them and
without `--entrypoint`, by the image CMD. -/
theorem resolveCommand_eq (c : Context) (data : ImageData) :
    resolveCommand c data = resolveEntrypoint c data ++
      (if c.args.drop 1 ≠ [] then c.args.drop 1
       else if c.isSet "entrypoint" = true then [] else data.ContainerConfig.Cmd) := by
  unfold resolveCommand
  simp only [length_pos_ite, inputCommand_eq]
  cases hargs : c.args.drop 1 with
  | nil =>
    cases hcmd : data.ContainerConfig.Cmd <;> cases hset : c.isSet "entrypoint" <;> simp
  | cons a rest => simp

theorem isOk_iff {α : Type} (r : Except String α) : r.isOk = true ↔ ∃ v, r = .ok v := by
  cases r <;> simp [Except.isOk, Except.toBool]

/-- With an empty resolved command `assembleConfig` stops at line 412 once the labels are
read. -/
theorem assembleConfig_no_command (E : Externals) (c : Context) (runtime : Runtime)
    (imageName : String) (data : ImageData) (l : Limits) (m : Modes) (env : StrMap)
    (hlabels : (E.getAllLabels (c.stringSlice "label-file") (c.stringSlice "label")).isOk = true)
    (hcmd : resolveCommand c data = []) :
    assembleConfig E c runtime imageName data l m env = .error noCommandError := by
  obtain ⟨labels, hl⟩ := (isOk_iff _).1 hlabels
  unfold assembleConfig
  simp [hl, hcmd, wrapErr, bind, Except.bind, throw, throwThe, MonadExceptOf.throw]

/-! ## Command and entrypoint (C1 - C4) -/

/-- C1: when `--entrypoint` is not given (the flag is unset and its slice is empty), the
resolved command is the image entrypoint followed by the positional arguments if there is at
least one, and otherwise the image entrypoint followed by the image CMD; a configuration that
`parseCreateOpts` returns carries that command. -/
theorem command_without_cli_entrypoint (E : Externals) (c : Context) (runtime : Runtime)
    (imageName : String) (data : ImageData) (env : StrMap)
    (hset : c.isSet "entrypoint" = false) (hcli : c.stringSlice "entrypoint" = []) :
    resolveCommand c data = data.ContainerConfig.Entrypoint ++
        (if c.args.drop 1 ≠ [] then c.args.drop 1 else data.ContainerConfig.Cmd) ∧
    ∀ config, (parseCreateOpts E c runtime imageName data env).2 = .ok config →
      config.Command = data.ContainerConfig.Entrypoint ++
        (if c.args.drop 1 ≠ [] then c.args.drop 1 else data.ContainerConfig.Cmd) := by
  have hentry : resolveEntrypoint c data = data.ContainerConfig.Entrypoint := by
    simp [resolveEntrypoint, hset, hcli]
  have hcmd : resolveCommand c data = data.ContainerConfig.Entrypoint ++
      (if c.args.drop 1 ≠ [] then c.args.drop 1 else data.ContainerConfig.Cmd) := by
    rw [resolveCommand_eq, hentry, hset]
    simp
  refine ⟨hcmd, ?_⟩
  intro config hok
  rw [(parseCreateOpts_command hok).1, hcmd]

/-- C1 on the spec's example: entrypoint `/bin/sh`, CMD `-c "echo hi"`, no `--entrypoint`, no
positional argument. -/
theorem command_without_cli_entrypoint_witness :
    resolveCommand plainRequest shImage = ["/bin/sh", "-c", "echo hi"] ∧
    (parseCreateOpts sampleExternals plainRequest emptyRuntime "alpine" shImage
      defaultEnvVariables).2.map (fun config => config.Command)
      = .ok ["/bin/sh", "-c", "echo hi"] :=
  ⟨(command_without_cli_entrypoint sampleExternals plainRequest emptyRuntime "alpine" shImage
      defaultEnvVariables rfl rfl).1, rfl⟩

/-- C2: when `--entrypoint` is set to the single empty string and there is at least one
positional argument, the resolved entrypoint is empty and the resolved command is exactly the
positional arguments, whatever the image entrypoint and the image CMD are. -/
theorem cleared_entrypoint_command (E : Externals) (c : Context) (runtime : Runtime)
    (imageName : String) (data : ImageData) (env : StrMap)
    (hset : c.isSet "entrypoint" = true) (hcli : c.stringSlice "entrypoint" = [""])
    (hargs : c.args.drop 1 ≠ []) :
    resolveEntrypoint c data = [] ∧ resolveCommand c data = c.args.drop 1 ∧
    ∀ config, (parseCreateOpts E c runtime imageName data env).2 = .ok config →
      config.Entrypoint = [] ∧ config.Command = c.args.drop 1 := by
  have hentry : resolveEntrypoint c data = [] := by
    simp [resolveEntrypoint, hset, hcli, joinEmpty]
  have hcmd : resolveCommand c data = c.args.drop 1 := by
    rw [resolveCommand_eq, hentry, if_pos hargs]
    rfl
  refine ⟨hentry, hcmd, ?_⟩
  intro config hok
  obtain ⟨h1, h2, _⟩ := parseCreateOpts_command hok
  exact ⟨h2.trans hentry, h1.trans hcmd⟩

/-- C2 on the spec's example: the same image, `--entrypoint ""` and the command `date`. -/
theorem cleared_entrypoint_command_witness :
    resolveCommand clearedRequest shImage = ["date"] ∧
    (parseCreateOpts sampleExternals clearedRequest emptyRuntime "alpine" shImage
      defaultEnvVariables).2.map (fun config => (config.Entrypoint, config.Command))
      = .ok ([], ["date"]) :=
  ⟨(cleared_entrypoint_command sampleExternals clearedRequest emptyRuntime "alpine" shImage
      defaultEnvVariables rfl rfl (by decide)).2.1, rfl⟩

/-- C3: when `--entrypoint` is set, the resolved command is the resolved entrypoint followed by
the positional arguments, for every image CMD; without positional arguments it is the resolved
entrypoint alone. -/
theorem cmd_dropped_when_entrypoint_set (E : Externals) (c : Context) (runtime : Runtime)
    (imageName : String) (data : ImageData) (env : StrMap)
    (hset : c.isSet "entrypoint" = true) :
    (∀ cmd : List String,
      resolveCommand c { data with ContainerConfig := { data.ContainerConfig with Cmd := cmd } }
        = resolveEntrypoint c data ++ c.args.drop 1) ∧
    (c.args.drop 1 = [] → resolveCommand c data = resolveEntrypoint c data) ∧
    ∀ config, (parseCreateOpts E c runtime imageName data env).2 = .ok config →
      config.Command = config.Entrypoint ++ c.args.drop 1 := by
  have hgen : ∀ d : ImageData, resolveCommand c d = resolveEntrypoint c d ++ c.args.drop 1 := by
    intro d
    rw [resolveCommand_eq, hset]
    by_cases hargs : c.args.drop 1 = []
    · simp [hargs]
    · simp [hargs]
  refine ⟨?_, ?_, ?_⟩
  · intro cmd
    rw [hgen]
    rfl
  · intro hargs
    rw [hgen, hargs, List.append_nil]
  · intro config hok
    obtain ⟨h1, h2, _⟩ := parseCreateOpts_command hok
    rw [h1, h2, hgen]

/-- C3 on a sample: `--entrypoint /bin/echo`, no positional argument, image CMD
`-c "echo hi"`. -/
theorem cmd_dropped_when_entrypoint_set_witness :
    resolveCommand echoRequest shImage = ["/bin/echo"] ∧
    (parseCreateOpts sampleExternals echoRequest emptyRuntime "alpine" shImage
      defaultEnvVariables).2.map (fun config => config.Command) = .ok ["/bin/echo"] :=
  ⟨(cmd_dropped_when_entrypoint_set sampleExternals echoRequest emptyRuntime "alpine" shImage
      defaultEnvVariables rfl).2.1 rfl, rfl⟩

/-- C4: when the command left after merging entrypoint, positional arguments and image CMD
is empty, `parseCreateOpts` returns no configuration, and its error is the no-command error of
line 412 whenever the steps before that line pass; every configuration it returns has a
non-empty `Command`. -/
theorem empty_command_rejected (E : Externals) (c : Context) (runtime : Runtime)
    (imageName : String) (data : ImageData) (env : StrMap) :
    (resolveCommand c data = [] →
      (parseCreateOpts E c runtime imageName data env).2.isOk = false ∧
      ((parseLimits E c).isOk = true → (parseModes E c runtime data).isOk = true →
        (E.readKVStrings (mergeImageEnv env data.ContainerConfig.Env) (c.stringSlice "env-file")
          (c.stringSlice "env")).2 = none →
        (E.getAllLabels (c.stringSlice "label-file") (c.stringSlice "label")).isOk = true →
        (parseCreateOpts E c runtime imageName data env).2 = .error noCommandError)) ∧
    (∀ config, (parseCreateOpts E c runtime imageName data env).2 = .ok config →
      config.Command ≠ []) := by
  have hok : ∀ config, (parseCreateOpts E c runtime imageName data env).2 = .ok config →
      config.Command ≠ [] := by
    intro config h
    obtain ⟨h1, _, h3⟩ := parseCreateOpts_command h
    rw [h1]
    exact h3
  refine ⟨?_, hok⟩
  intro hcmd
  refine ⟨?_, ?_⟩
  · cases h : (parseCreateOpts E c runtime imageName data env).2 with
    | error e => rfl
    | ok config => exact absurd hcmd (parseCreateOpts_command h).2.2
  · intro hl hm hkv hlabels
    obtain ⟨l, hl⟩ := (isOk_iff _).1 hl
    obtain ⟨m, hm⟩ := (isOk_iff _).1 hm
    unfold parseCreateOpts
    rw [hl, hm]
    dsimp only
    generalize E.readKVStrings (mergeImageEnv env data.ContainerConfig.Env)
      (c.stringSlice "env-file") (c.stringSlice "env") = kv at hkv
    obtain ⟨env1, err⟩ := kv
    dsimp only at hkv
    subst hkv
    dsimp only
    rw [assembleConfig_no_command E c runtime imageName data l m env1 hlabels hcmd]

/-- C4 on the claim's example: `--entrypoint ""`, no positional argument, image CMD
`-c "echo hi"`. -/
theorem empty_command_rejected_witness :
    resolveCommand clearedOnlyRequest shImage = [] ∧
    (parseCreateOpts sampleExternals clearedOnlyRequest emptyRuntime "alpine" shImage
      defaultEnvVariables).2 = .error noCommandError :=
  ⟨rfl, ((empty_command_rejected sampleExternals clearedOnlyRequest emptyRuntime "alpine" shImage
      defaultEnvVariables).1 rfl).2 rfl rfl rfl rfl⟩

/-! ## Privileged mode and `no-new-privileges` (C5, C6) -/

/-- For a privileged configuration lines 552-566 are the resource check alone. -/
theorem finishConfig_privileged (E : Externals) (c : Context) (config0 : CreateConfig)
    (hpriv : config0.Privileged = true) :
    finishConfig E c config0 =
      match E.verifyContainerResources
          { config0 with SecurityOpts := c.stringSlice "security-opt" } false with
      | .error err => .error err
      | .ok _ => .ok { config0 with SecurityOpts := c.stringSlice "security-opt" } := by
  have hsec : (if (!config0.Privileged) = true then
      parseSecurityOpt E config0 (c.stringSlice "security-opt") else (config0, none))
      = (config0, none) := by
    simp [hpriv]
  unfold finishConfig
  dsimp only
  rw [hsec]

theorem securityOptLoop_noNewPrivs (E : Externals) (opts : List String) :
    ∀ (config : CreateConfig) (labelOpts : List String),
      (securityOptLoop E opts config labelOpts).2.2 = none →
      ("no-new-privileges" ∈ opts ∨ config.NoNewPrivs = true) →
      (securityOptLoop E opts config labelOpts).1.NoNewPrivs = true := by
  induction opts with
  | nil =>
    intro config labelOpts _ h
    rcases h with h | h
    · simp at h
    · exact h
  | cons opt rest ih =>
    intro config labelOpts
    unfold securityOptLoop
    split
    · intro herr _
      exact ih _ _ herr (Or.inr rfl)
    · rename_i hne
      have hmem : ("no-new-privileges" ∈ opt :: rest ∨ config.NoNewPrivs = true) →
          ("no-new-privileges" ∈ rest ∨ config.NoNewPrivs = true) := by
        intro h
        rcases h with h | h
        · rcases List.mem_cons.1 h with h | h
          · exact absurd h.symm hne
          · exact Or.inl h
        · exact Or.inr h
      split
      · split
        · intro herr h
          exact ih _ _ herr (hmem h)
        · split
          · intro herr h
            exact ih _ _ herr (hmem h)
          · split
            · intro herr h
              exact ih _ _ herr (hmem h)
            · intro herr
              simp at herr
      · intro herr
        simp at herr

theorem seccompDefault_noNewPrivs (E : Externals) (config : CreateConfig) :
    (seccompDefault E config).1.NoNewPrivs = config.NoNewPrivs := by
  unfold seccompDefault
  split
  · split
    · rfl
    · rfl
    · split <;> rfl
  · rfl

/-- The five ways through `parseSecurityOpt`: the stage that fails and its error, or the
result of the label initialisation. -/
theorem parseSecurityOpt_stages (E : Externals) (config : CreateConfig) (opts : List String) :
    (∃ e, pidLabelOpts E config [] = .error e ∧
      parseSecurityOpt E config opts = (config, some e)) ∨
    (∃ l0 e, pidLabelOpts E config [] = .ok l0 ∧ ipcLabelOpts E config l0 = .error e ∧
      parseSecurityOpt E config opts = (config, some e)) ∨
    (∃ l0 l1 config1 l2 e, pidLabelOpts E config [] = .ok l0 ∧
      ipcLabelOpts E config l0 = .ok l1 ∧
      securityOptLoop E opts config l1 = (config1, l2, some e) ∧
      parseSecurityOpt E config opts = (config1, some e)) ∨
    (∃ l0 l1 config1 l2 config2 e, pidLabelOpts E config [] = .ok l0 ∧
      ipcLabelOpts E config l0 = .ok l1 ∧
      securityOptLoop E opts config l1 = (config1, l2, none) ∧
      seccompDefault E config1 = (config2, some e) ∧
      parseSecurityOpt E config opts = (config2, some e)) ∨
    (∃ l0 l1 config1 l2 config2, pidLabelOpts E config [] = .ok l0 ∧
      ipcLabelOpts E config l0 = .ok l1 ∧
      securityOptLoop E opts config l1 = (config1, l2, none) ∧
      seccompDefault E config1 = (config2, none) ∧
      parseSecurityOpt E config opts =
        ({ config2 with ProcessLabel := (E.InitLabels l2).1,
                        MountLabel := (E.InitLabels l2).2.1 }, (E.InitLabels l2).2.2)) := by
  unfold parseSecurityOpt
  cases h0 : pidLabelOpts E config [] with
  | error e => exact Or.inl ⟨e, rfl, rfl⟩
  | ok l0 =>
    dsimp only
    cases h1 : ipcLabelOpts E config l0 with
    | error e => exact Or.inr (Or.inl ⟨l0, e, rfl, h1, rfl⟩)
    | ok l1 =>
      dsimp only
      rcases hloop : securityOptLoop E opts config l1 with ⟨config1, l2, err⟩
      cases err with
      | some e => exact Or.inr (Or.inr (Or.inl ⟨l0, l1, config1, l2, e, rfl, h1, hloop, rfl⟩))
      | none =>
        dsimp only
        rcases hsec : seccompDefault E config1 with ⟨config2, err⟩
        cases err with
        | some e =>
          exact Or.inr (Or.inr (Or.inr (Or.inl
            ⟨l0, l1, config1, l2, config2, e, rfl, h1, hloop, hsec, rfl⟩)))
        | none =>
          exact Or.inr (Or.inr (Or.inr (Or.inr
            ⟨l0, l1, config1, l2, config2, rfl, h1, hloop, hsec, rfl⟩)))

/-- The stages behind a `parseSecurityOpt` that returns without error. -/
theorem parseSecurityOpt_ok {E : Externals} {config : CreateConfig} {opts : List String}
    (herr : (parseSecurityOpt E config opts).2 = none) :
    ∃ l0 l1 config1 l2 config2, pidLabelOpts E config [] = .ok l0 ∧
      ipcLabelOpts E config l0 = .ok l1 ∧
      securityOptLoop E opts config l1 = (config1, l2, none) ∧
      seccompDefault E config1 = (config2, none) ∧
      parseSecurityOpt E config opts =
        ({ config2 with ProcessLabel := (E.InitLabels l2).1,
                        MountLabel := (E.InitLabels l2).2.1 }, (E.InitLabels l2).2.2) := by
  rcases parseSecurityOpt_stages E config opts with
    ⟨e, _, h⟩ | ⟨l0, e, _, _, h⟩ | ⟨l0, l1, config1, l2, e, _, _, _, h⟩ |
    ⟨l0, l1, config1, l2, config2, e, _, _, _, _, h⟩ | ⟨l0, l1, config1, l2, config2, h⟩
  · rw [h] at herr; simp at herr
  · rw [h] at herr; simp at herr
  · rw [h] at herr; simp at herr
  · rw [h] at herr; simp at herr
  · exact ⟨l0, l1, config1, l2, config2, h⟩

/-- Whenever `parseSecurityOpt` returns without error on a list that holds the bare token,
the flag is set. -/
theorem parseSecurityOpt_noNewPrivs (E : Externals) (config : CreateConfig) (opts : List String)
    (hmem : "no-new-privileges" ∈ opts) (herr : (parseSecurityOpt E config opts).2 = none) :
    (parseSecurityOpt E config opts).1.NoNewPrivs = true := by
  obtain ⟨l0, l1, config1, l2, config2, _, _, hloop, hsec, hres⟩ := parseSecurityOpt_ok herr
  have h1 := securityOptLoop_noNewPrivs E opts config l1
  rw [hloop] at h1
  have h2 := seccompDefault_noNewPrivs E config1
  rw [hsec] at h2
  rw [hres]
  exact h2.trans (h1 rfl (Or.inl hmem))

/-- C5: with `--privileged`, once the struct literal is built the outcome of `parseCreateOpts`
is that of the resource check alone, `parseSecurityOpt` is not run whatever the security
options are, and every configuration returned has process label, mount label, seccomp profile
path and apparmor profile empty and the no-new-privileges flag at its default. -/
theorem privileged_skips_security (E : Externals) (c : Context) (runtime : Runtime)
    (imageName : String) (data : ImageData) (env : StrMap)
    (hpriv : c.bool "privileged" = true) :
    (∀ l m env1 config0, parseLimits E c = .ok l → parseModes E c runtime data = .ok m →
      E.readKVStrings (mergeImageEnv env data.ContainerConfig.Env) (c.stringSlice "env-file")
        (c.stringSlice "env") = (env1, none) →
      assembleConfig E c runtime imageName data l m env1 = .ok config0 →
      (parseCreateOpts E c runtime imageName data env).2 =
        match E.verifyContainerResources
            { config0 with SecurityOpts := c.stringSlice "security-opt" } false with
        | .error err => .error err
        | .ok _ => .ok { config0 with SecurityOpts := c.stringSlice "security-opt" }) ∧
    ∀ config, (parseCreateOpts E c runtime imageName data env).2 = .ok config →
      config.ProcessLabel = "" ∧ config.MountLabel = "" ∧ config.SeccompProfilePath = "" ∧
      config.ApparmorProfile = "" ∧ config.NoNewPrivs = false := by
  have hfin : ∀ l m env1 config0,
      assembleConfig E c runtime imageName data l m env1 = .ok config0 →
      config0.Privileged = true ∧ config0.ProcessLabel = "" ∧ config0.MountLabel = "" ∧
      config0.SeccompProfilePath = "" ∧ config0.ApparmorProfile = "" ∧
      config0.NoNewPrivs = false := by
    intro l m env1 config0 h
    obtain ⟨_, labels, ports, shm, net, hlit⟩ := assembleConfig_ok h
    subst hlit
    exact ⟨hpriv, rfl, rfl, rfl, rfl, rfl⟩
  refine ⟨?_, ?_⟩
  · intro l m env1 config0 hl hm hkv hcfg
    rw [← finishConfig_privileged E c config0 (hfin l m env1 config0 hcfg).1]
    unfold parseCreateOpts
    rw [hl, hm]
    dsimp only
    rw [hkv]
    dsimp only
    rw [hcfg]
  · intro config hok
    obtain ⟨l, m, env1, config0, _, _, _, hcfg, hfinish⟩ := parseCreateOpts_ok hok
    obtain ⟨hp, h1, h2, h3, h4, h5⟩ := hfin l m env1 config0 hcfg
    rw [finishConfig_privileged E c config0 hp] at hfinish
    split at hfinish
    · contradiction
    · injection hfinish with hfinish
      subst hfinish
      exact ⟨h1, h2, h3, h4, h5⟩

/-- C5 on a sample: `--privileged` with a malformed option, the bare token and a seccomp
profile; the request succeeds and no security field is set. -/
theorem privileged_skips_security_witness :
    (parseCreateOpts sampleExternals privilegedRequest emptyRuntime "alpine" shImage
      defaultEnvVariables).2.isOk = true ∧
    ∀ config, (parseCreateOpts sampleExternals privilegedRequest emptyRuntime "alpine" shImage
        defaultEnvVariables).2 = .ok config →
      config.ProcessLabel = "" ∧ config.MountLabel = "" ∧ config.SeccompProfilePath = "" ∧
      config.ApparmorProfile = "" ∧ config.NoNewPrivs = false :=
  ⟨rfl, (privileged_skips_security sampleExternals privilegedRequest emptyRuntime "alpine" shImage
      defaultEnvVariables rfl).2⟩

/-- C6 as stated fails: with `--privileged --security-opt no-new-privileges` the list holds
the bare token, a configuration is returned, and its flag is not set. -/
theorem no_new_privileges_unset_when_privileged :
    "no-new-privileges" ∈ privilegedNoNewPrivsRequest.stringSlice "security-opt" ∧
    (parseCreateOpts sampleExternals privilegedNoNewPrivsRequest emptyRuntime "alpine" shImage
      defaultEnvVariables).2.map (fun config => config.NoNewPrivs) = .ok false :=
  ⟨by decide, rfl⟩

/-- C6, amended: when the security-option list holds the bare token `no-new-privileges`, at
any position, `parseSecurityOpt` sets the flag whenever it returns without error, and a
configuration that `parseCreateOpts` returns for a request that is not privileged has the
flag set. -/
theorem no_new_privileges_set (E : Externals) (c : Context) (runtime : Runtime)
    (imageName : String) (data : ImageData) (env : StrMap) :
    (∀ (config : CreateConfig) (before after : List String),
      (parseSecurityOpt E config (before ++ "no-new-privileges" :: after)).2 = none →
      (parseSecurityOpt E config (before ++ "no-new-privileges" :: after)).1.NoNewPrivs = true) ∧
    (c.bool "privileged" = false → "no-new-privileges" ∈ c.stringSlice "security-opt" →
      ∀ config, (parseCreateOpts E c runtime imageName data env).2 = .ok config →
        config.NoNewPrivs = true) := by
  refine ⟨?_, ?_⟩
  · intro config before after herr
    exact parseSecurityOpt_noNewPrivs E config _ (by simp) herr
  · intro hpriv hmem config hok
    obtain ⟨l, m, env1, config0, _, _, _, hcfg, hfinish⟩ := parseCreateOpts_ok hok
    obtain ⟨_, labels, ports, shm, net, hlit⟩ := assembleConfig_ok hcfg
    have hp : config0.Privileged = false := by
      subst hlit
      exact hpriv
    have hsec : (if (!config0.Privileged) = true then
        parseSecurityOpt E config0 (c.stringSlice "security-opt") else (config0, none))
        = parseSecurityOpt E config0 (c.stringSlice "security-opt") := by
      simp [hp]
    unfold finishConfig at hfinish
    dsimp only at hfinish
    rw [hsec] at hfinish
    have hflag := parseSecurityOpt_noNewPrivs E config0 _ hmem
    generalize parseSecurityOpt E config0 (c.stringSlice "security-opt") = secured
      at hfinish hflag
    obtain ⟨config1, err⟩ := secured
    cases err with
    | some e => simp at hfinish
    | none =>
      dsimp only at hfinish hflag
      split at hfinish
      · contradiction
      · injection hfinish with hfinish
        subst hfinish
        exact hflag rfl

/-- C6 amended, on a sample: not privileged, the token after a label option. -/
theorem no_new_privileges_set_witness :
    (parseCreateOpts sampleExternals noNewPrivsRequest emptyRuntime "alpine" shImage
      defaultEnvVariables).2.isOk = true ∧
    ∀ config, (parseCreateOpts sampleExternals noNewPrivsRequest emptyRuntime "alpine" shImage
        defaultEnvVariables).2 = .ok config → config.NoNewPrivs = true :=
  ⟨rfl, (no_new_privileges_set sampleExternals noNewPrivsRequest emptyRuntime "alpine" shImage
      defaultEnvVariables).2 rfl (by decide)⟩

/-! ## Parsing of the security options (C7) -/

theorem string_mk_eq_iff (cs : List Char) (s : String) : String.mk cs = s ↔ cs = s.toList := by
  constructor
  · intro h; subst h; rfl
  · intro h; subst h; rfl

theorem splitN2_eq (opt : String) :
    splitN2 opt '=' =
      if '=' ∈ opt.toList then [keyOf opt, afterFirstEq opt] else [opt] := by
  unfold splitN2 keyOf afterFirstEq
  rw [List.span_eq_take_drop]
  cases hd : opt.toList.dropWhile (fun ch => ch != '=') with
  | nil =>
    have hall := List.dropWhile_eq_nil_iff.1 hd
    have hnot : '=' ∉ opt.toList := by
      intro hmem
      have := hall _ hmem
      simp at this
    rw [if_neg hnot]
  | cons a after =>
    have hmem : '=' ∈ opt.toList := by
      by_contra hnot
      have hall : ∀ x ∈ opt.toList, (fun ch => ch != '=') x = true := by
        intro x hx
        have : x ≠ '=' := fun h => hnot (h ▸ hx)
        simpa using this
      rw [List.dropWhile_eq_nil_iff.2 hall] at hd
      exact List.noConfusion hd
    rw [if_pos hmem]
    rfl

theorem isPrefixOf_key (ks : List Char) (hks : '=' ∉ ks) :
    ∀ l : List Char, (ks ++ ['=']).isPrefixOf l = true ↔
      (l.takeWhile (fun ch => ch != '=') = ks ∧ '=' ∈ l) := by
  induction ks with
  | nil =>
    intro l
    cases l with
    | nil => simp
    | cons a t =>
      by_cases ha : a = '='
      · subst ha; simp
      · have ha2 : ¬ '=' = a := fun h => ha h.symm
        simp [List.isPrefixOf, List.takeWhile_cons, ha, ha2]
  | cons k ks ih =>
    intro l
    have hk : ¬ k = '=' := fun h => hks (by simp [h])
    have hks2 : '=' ∉ ks := fun h => hks (by simp [h])
    cases l with
    | nil => simp
    | cons a t =>
      by_cases ha : a = '='
      · subst ha
        simp [List.isPrefixOf, List.takeWhile_cons, hk]
      · have ha2 : ¬ '=' = a := fun h => ha h.symm
        have hka : (k = a) ↔ (a = k) := eq_comm
        simp [List.isPrefixOf, List.takeWhile_cons, ha, ha2, ih hks2 t, hka, and_assoc]

theorem hasKey_iff (key opt : String) (hkey : '=' ∉ key.toList) :
    hasKey key opt = true ↔ ('=' ∈ opt.toList ∧ keyOf opt = key) := by
  unfold hasKey keyOf
  rw [isPrefixOf_key key.toList hkey, string_mk_eq_iff]
  exact And.comm

/-- One turn of the loop of lines 171-191, by the form of the option. -/
theorem securityOptLoop_cons (E : Externals) (opt : String) (rest : List String)
    (config : CreateConfig) (labelOpts : List String) :
    securityOptLoop E (opt :: rest) config labelOpts =
      if opt = "no-new-privileges" then
        securityOptLoop E rest { config with NoNewPrivs := true } labelOpts
      else if hasKey "label" opt = true then
        securityOptLoop E rest config (labelOpts ++ [afterFirstEq opt])
      else if hasKey "apparmor" opt = true then
        securityOptLoop E rest { config with ApparmorProfile := afterFirstEq opt } labelOpts
      else if hasKey "seccomp" opt = true then
        securityOptLoop E rest { config with SeccompProfilePath := afterFirstEq opt } labelOpts
      else
        (config, labelOpts, some (securityOptError E opt)) := by
  have hl : '=' ∉ "label".toList := by decide
  have ha : '=' ∉ "apparmor".toList := by decide
  have hs : '=' ∉ "seccomp".toList := by decide
  conv_lhs => rw [securityOptLoop]
  by_cases hno : opt = "no-new-privileges"
  · rw [if_pos hno, if_pos hno]
  · rw [if_neg hno, if_neg hno, splitN2_eq]
    by_cases hmem : '=' ∈ opt.toList
    · rw [if_pos hmem]
      dsimp only
      simp only [hasKey_iff _ _ hl, hasKey_iff _ _ ha, hasKey_iff _ _ hs, hmem, true_and,
        securityOptError, if_true]
    · rw [if_neg hmem]
      dsimp only
      simp only [hasKey_iff _ _ hl, hasKey_iff _ _ ha, hasKey_iff _ _ hs, hmem, false_and,
        securityOptError, if_false]

theorem hasKey_token (key : String) (hkey : '=' ∉ key.toList) :
    hasKey key "no-new-privileges" = false := by
  cases h : hasKey key "no-new-privileges" with
  | false => rfl
  | true =>
    have := ((hasKey_iff key _ hkey).1 h).1
    exact absurd this (by decide)

theorem hasKey_exclusive (k1 k2 opt : String) (h1 : '=' ∉ k1.toList) (h2 : '=' ∉ k2.toList)
    (hne : k1 ≠ k2) (h : hasKey k1 opt = true) : hasKey k2 opt = false := by
  cases h' : hasKey k2 opt with
  | false => rfl
  | true =>
    have e1 := ((hasKey_iff k1 opt h1).1 h).2
    have e2 := ((hasKey_iff k2 opt h2).1 h').2
    exact absurd (e1.symm.trans e2) hne

/-- The error of the loop is that of the first option the spec does not accept. -/
theorem securityOptLoop_error (E : Externals) (opts : List String) :
    ∀ (config : CreateConfig) (labelOpts : List String),
      (securityOptLoop E opts config labelOpts).2.2 =
        (opts.find? (fun o => !acceptedOption o)).map (securityOptError E) := by
  induction opts with
  | nil => intro config labelOpts; rfl
  | cons opt rest ih =>
    intro config labelOpts
    rw [securityOptLoop_cons]
    by_cases h0 : opt = "no-new-privileges"
    · rw [if_pos h0, ih]
      simp [List.find?_cons, acceptedOption, h0]
    · rw [if_neg h0]
      by_cases h1 : hasKey "label" opt = true
      · rw [if_pos h1, ih]
        simp [List.find?_cons, acceptedOption, h1]
      · rw [if_neg h1]
        by_cases h2 : hasKey "apparmor" opt = true
        · rw [if_pos h2, ih]
          simp [List.find?_cons, acceptedOption, h2]
        · rw [if_neg h2]
          by_cases h3 : hasKey "seccomp" opt = true
          · rw [if_pos h3, ih]
            simp [List.find?_cons, acceptedOption, h3]
          · rw [if_neg h3]
            have h0b : (opt == "no-new-privileges") = false := by simpa using h0
            simp [List.find?_cons, acceptedOption, h0b, h1, h2, h3]

/-- Without error, the loop leaves in the profile fields the value of the last option that
names them. -/
theorem securityOptLoop_profiles (E : Externals) (opts : List String) :
    ∀ (config : CreateConfig) (labelOpts : List String),
      (securityOptLoop E opts config labelOpts).2.2 = none →
      (securityOptLoop E opts config labelOpts).1.ApparmorProfile
        = lastProfileValue "apparmor" config.ApparmorProfile opts ∧
      (securityOptLoop E opts config labelOpts).1.SeccompProfilePath
        = lastProfileValue "seccomp" config.SeccompProfilePath opts := by
  have hl : '=' ∉ "label".toList := by decide
  have ha : '=' ∉ "apparmor".toList := by decide
  have hs : '=' ∉ "seccomp".toList := by decide
  induction opts with
  | nil => intro config labelOpts _; exact ⟨rfl, rfl⟩
  | cons opt rest ih =>
    intro config labelOpts
    rw [securityOptLoop_cons]
    by_cases h0 : opt = "no-new-privileges"
    · rw [if_pos h0]
      intro herr
      have := ih _ _ herr
      subst h0
      simpa [lastProfileValue, hasKey_token _ ha, hasKey_token _ hs] using this
    · rw [if_neg h0]
      by_cases h1 : hasKey "label" opt = true
      · rw [if_pos h1]
        intro herr
        have := ih _ _ herr
        simpa [lastProfileValue, hasKey_exclusive _ _ opt hl ha (by decide) h1,
          hasKey_exclusive _ _ opt hl hs (by decide) h1] using this
      · rw [if_neg h1]
        by_cases h2 : hasKey "apparmor" opt = true
        · rw [if_pos h2]
          intro herr
          have := ih _ _ herr
          simpa [lastProfileValue, h2,
            hasKey_exclusive _ _ opt ha hs (by decide) h2] using this
        · rw [if_neg h2]
          by_cases h3 : hasKey "seccomp" opt = true
          · rw [if_pos h3]
            intro herr
            have := ih _ _ herr
            simpa [lastProfileValue, h2, h3] using this
          · rw [if_neg h3]
            intro herr
            simp at herr

/-- Once both namespace lookups have passed, `parseSecurityOpt` is the loop followed by the
seccomp default and the label initialisation. -/
theorem parseSecurityOpt_after_lookups (E : Externals) (config : CreateConfig)
    (opts : List String) (l0 l1 : List String)
    (h0 : pidLabelOpts E config [] = .ok l0) (h1 : ipcLabelOpts E config l0 = .ok l1) :
    parseSecurityOpt E config opts =
      match securityOptLoop E opts config l1 with
      | (config, _, some err) => (config, some err)
      | (config, labelOpts, none) =>
        match seccompDefault E config with
        | (config, some err) => (config, some err)
        | (config, none) =>
          ({ config with ProcessLabel := (E.InitLabels labelOpts).1,
                         MountLabel := (E.InitLabels labelOpts).2.1 },
            (E.InitLabels labelOpts).2.2) := by
  unfold parseSecurityOpt
  rw [h0]
  dsimp only
  rw [h1]

/-- C7: in the option loop of `parseSecurityOpt` an error arises exactly when some option is
neither the bare token `no-new-privileges` nor `key=<v>` with key `label`, `apparmor` or
`seccomp`; the error is then the message of line 177 or 188 built from the first such option
(under `%q`), and it is the error of `parseSecurityOpt` once both namespace lookups have
passed; when every option is accepted, the apparmor and seccomp fields hold the text after the
first `=` of the last `apparmor=` and `seccomp=` option. -/
theorem security_options_parsed (E : Externals) (config : CreateConfig) (opts : List String)
    (labelOpts : List String) :
    ((securityOptLoop E opts config labelOpts).2.2 ≠ none ↔
      ∃ opt ∈ opts, acceptedOption opt = false) ∧
    (∀ opt, opts.find? (fun o => !acceptedOption o) = some opt →
      (securityOptLoop E opts config labelOpts).2.2 = some (securityOptError E opt) ∧
      ∀ l0, pidLabelOpts E config [] = .ok l0 → ipcLabelOpts E config l0 = .ok labelOpts →
        (parseSecurityOpt E config opts).2 = some (securityOptError E opt)) ∧
    ((securityOptLoop E opts config labelOpts).2.2 = none →
      (securityOptLoop E opts config labelOpts).1.ApparmorProfile
        = lastProfileValue "apparmor" config.ApparmorProfile opts ∧
      (securityOptLoop E opts config labelOpts).1.SeccompProfilePath
        = lastProfileValue "seccomp" config.SeccompProfilePath opts) := by
  have herr := securityOptLoop_error E opts config labelOpts
  refine ⟨?_, ?_, securityOptLoop_profiles E opts config labelOpts⟩
  · rw [herr]
    cases hfind : opts.find? (fun o => !acceptedOption o) with
    | none =>
      have hall := List.find?_eq_none.1 hfind
      constructor
      · intro h; exact absurd rfl h
      · rintro ⟨opt, hmem, hacc⟩
        have := hall opt hmem
        simp [hacc] at this
    | some opt =>
      constructor
      · intro _
        have hp := List.find?_some hfind
        exact ⟨opt, List.mem_of_find?_eq_some hfind, by simpa using hp⟩
      · intro _
        simp
  · intro opt hfind
    have hloop : (securityOptLoop E opts config labelOpts).2.2
        = some (securityOptError E opt) := by
      rw [herr, hfind]
      rfl
    refine ⟨hloop, ?_⟩
    intro l0 h0 h1
    rw [parseSecurityOpt_after_lookups E config opts l0 labelOpts h0 h1]
    rcases hres : securityOptLoop E opts config labelOpts with ⟨config1, l2, err⟩
    rw [hres] at hloop
    dsimp only at hloop
    subst hloop
    rfl

/-- C7 on samples: the first option that is not accepted is `bogus`, which has no `=`; in an
accepted list the seccomp path is the text after the first `=`. -/
theorem security_options_parsed_witness :
    (securityOptLoop sampleExternals sampleSecurityOpts plainConfig []).2.2
      = some "Invalid --security-opt 1: \"bogus\"" ∧
    (securityOptLoop sampleExternals acceptedSecurityOpts plainConfig []).1.SeccompProfilePath
      = "/etc/a=b.json" :=
  ⟨((security_options_parsed sampleExternals plainConfig sampleSecurityOpts []).2.1
      "bogus" rfl).1,
   ((security_options_parsed sampleExternals plainConfig acceptedSecurityOpts []).2.2 rfl).2⟩

/-! ## The seccomp profile path (C8) -/

/-- C8: in `parseSecurityOpt`, after the lookups and the option loop have passed and left the
explicit seccomp path `p` (the value of the last `seccomp=` option), the resolved path is `p`
when `p` is not empty, whatever the probes report; when `p` is empty it is the override
profile if the override probe finds it, else (override not found) it is the default profile
if the probe of the default finds it, and it stays empty without an error of this step if
neither is found; a probe that fails otherwise makes `parseSecurityOpt` fail with that
error. -/
theorem seccomp_path_resolution (E : Externals) (config : CreateConfig) (opts : List String)
    (l0 l1 l2 : List String) (config1 : CreateConfig)
    (h0 : pidLabelOpts E config [] = .ok l0) (h1 : ipcLabelOpts E config l0 = .ok l1)
    (hloop : securityOptLoop E opts config l1 = (config1, l2, none)) :
    config1.SeccompProfilePath = lastProfileValue "seccomp" config.SeccompProfilePath opts ∧
    (config1.SeccompProfilePath ≠ "" →
      (parseSecurityOpt E config opts).1.SeccompProfilePath = config1.SeccompProfilePath ∧
      (parseSecurityOpt E config opts).2 = (E.InitLabels l2).2.2) ∧
    (config1.SeccompProfilePath = "" →
      (E.stat E.SeccompOverridePath = .present →
        (parseSecurityOpt E config opts).1.SeccompProfilePath = E.SeccompOverridePath ∧
        (parseSecurityOpt E config opts).2 = (E.InitLabels l2).2.2) ∧
      (E.stat E.SeccompOverridePath = .notExist → E.stat E.SeccompDefaultPath = .present →
        (parseSecurityOpt E config opts).1.SeccompProfilePath = E.SeccompDefaultPath ∧
        (parseSecurityOpt E config opts).2 = (E.InitLabels l2).2.2) ∧
      (E.stat E.SeccompOverridePath = .notExist → E.stat E.SeccompDefaultPath = .notExist →
        (parseSecurityOpt E config opts).1.SeccompProfilePath = "" ∧
        (parseSecurityOpt E config opts).2 = (E.InitLabels l2).2.2) ∧
      (∀ err, E.stat E.SeccompOverridePath = .otherError err →
        (parseSecurityOpt E config opts).2 =
          some (Wrapf err ("can't check if " ++ E.quote E.SeccompOverridePath ++ " exists"))) ∧
      (∀ err, E.stat E.SeccompOverridePath = .notExist →
        E.stat E.SeccompDefaultPath = .otherError err →
        (parseSecurityOpt E config opts).2 =
          some (Wrapf err ("can't check if " ++ E.quote E.SeccompDefaultPath ++ " exists")))) := by
  have hres := parseSecurityOpt_after_lookups E config opts l0 l1 h0 h1
  rw [hloop] at hres
  dsimp only at hres
  have hprof := (securityOptLoop_profiles E opts config l1 (by rw [hloop])).2
  rw [hloop] at hprof
  refine ⟨hprof, ?_, ?_⟩
  · intro hp
    have hsec : seccompDefault E config1 = (config1, none) := by
      unfold seccompDefault
      rw [if_neg hp]
    rw [hres, hsec]
    exact ⟨rfl, rfl⟩
  · intro hp
    refine ⟨?_, ?_, ?_, ?_, ?_⟩
    · intro hov
      have hsec : seccompDefault E config1
          = ({ config1 with SeccompProfilePath := E.SeccompOverridePath }, none) := by
        unfold seccompDefault
        rw [if_pos hp, hov]
      rw [hres, hsec]
      exact ⟨rfl, rfl⟩
    · intro hov hdf
      have hsec : seccompDefault E config1
          = ({ config1 with SeccompProfilePath := E.SeccompDefaultPath }, none) := by
        unfold seccompDefault
        rw [if_pos hp, hov]
        dsimp only
        rw [hdf]
      rw [hres, hsec]
      exact ⟨rfl, rfl⟩
    · intro hov hdf
      have hsec : seccompDefault E config1 = (config1, none) := by
        unfold seccompDefault
        rw [if_pos hp, hov]
        dsimp only
        rw [hdf]
      rw [hres, hsec]
      exact ⟨hp, rfl⟩
    · intro err hov
      have hsec : seccompDefault E config1 = (config1, some
          (Wrapf err ("can't check if " ++ E.quote E.SeccompOverridePath ++ " exists"))) := by
        unfold seccompDefault
        rw [if_pos hp, hov]
      rw [hres, hsec]
    · intro err hov hdf
      have hsec : seccompDefault E config1 = (config1, some
          (Wrapf err ("can't check if " ++ E.quote E.SeccompDefaultPath ++ " exists"))) := by
        unfold seccompDefault
        rw [if_pos hp, hov]
        dsimp only
        rw [hdf]
      rw [hres, hsec]

/-- C8 on a sample: no explicit path, no override profile, the default profile exists. -/
theorem seccomp_path_resolution_witness :
    (parseSecurityOpt sampleExternals plainConfig ["no-new-privileges"]).1.SeccompProfilePath
      = "/usr/share/containers/seccomp.json" ∧
    (parseSecurityOpt sampleExternals plainConfig ["no-new-privileges"]).2 = none :=
  ((seccomp_path_resolution sampleExternals plainConfig ["no-new-privileges"] [] [] []
      { plainConfig with NoNewPrivs := true } rfl rfl rfl).2.2 rfl).2.1 rfl rfl

/-! ## CPU exclusions (C9) -/

/-- What a successful `parseModes` has checked. -/
theorem parseModes_ok {E : Externals} {c : Context} {runtime : Runtime} {data : ImageData}
    {m : Modes} (h : parseModes E c runtime data = .ok m) :
    E.pidValid (c.string "pid") = true ∧ E.usernsValid (c.string "userns") = true ∧
    checkDetachRm c = .ok () ∧ checkCpuPeriod c = .ok () ∧ checkCpuQuota c = .ok () ∧
    E.utsValid (c.string "uts") = true ∧ E.ipcValid (c.string "ipc") = true := by
  unfold parseModes at h
  simp only [bind, Except.bind] at h
  repeat' split at h
  all_goals first | contradiction | skip
  all_goals
    simp only [Bool.not_eq_true', Bool.not_eq_false] at *
    exact ⟨by assumption, by assumption, by assumption, by assumption, by assumption,
      by assumption, by assumption⟩

/-- Once the steps before line 310 pass, an error of the CPU period check, or of the CPU quota
check after a passing period check, is the error of `parseModes`. -/
theorem parseModes_cpu (E : Externals) (c : Context) (runtime : Runtime) (data : ImageData)
    (hpid : E.pidValid (c.string "pid") = true) (husr : E.usernsValid (c.string "userns") = true)
    (hdr : checkDetachRm c = .ok ()) :
    (∀ e, checkCpuPeriod c = .error e → parseModes E c runtime data = .error e) ∧
    (checkCpuPeriod c = .ok () → ∀ e, checkCpuQuota c = .error e →
      parseModes E c runtime data = .error e) := by
  refine ⟨?_, ?_⟩
  · intro e he
    unfold parseModes
    simp [bind, Except.bind, hpid, husr, hdr, he, pure, Except.pure]
  · intro hp e he
    unfold parseModes
    simp [bind, Except.bind, hpid, husr, hdr, hp, he, pure, Except.pure]

/-- C9: the check of lines 310-312 fails, with the message naming `--cpu-period` and
`--cpus`, when the CPU period is not zero and the CPU count is above zero; the check of lines
313-315 fails, with the message naming `--cpu-quota` and `--cpus`, when the CPU quota is not
zero and the CPU count is above zero; in both cases `parseCreateOpts` returns no
configuration. Neither check fails when the CPU count is not above zero or when period and
quota are both zero. Once the steps before line 310 pass, the error of `parseCreateOpts` is
that of the period check, or that of the quota check when the period check passes. -/
theorem cpu_exclusion_checks (E : Externals) (c : Context) (runtime : Runtime)
    (imageName : String) (data : ImageData) (env : StrMap) :
    (c.int64 "cpu-period" ≠ 0 → c.float64 "cpus" > 0 →
      checkCpuPeriod c = .error "--cpu-period and --cpus cannot be set together" ∧
      (parseCreateOpts E c runtime imageName data env).2.isOk = false) ∧
    (c.int64 "cpu-quota" ≠ 0 → c.float64 "cpus" > 0 →
      checkCpuQuota c = .error "--cpu-quota and --cpus cannot be set together" ∧
      (parseCreateOpts E c runtime imageName data env).2.isOk = false) ∧
    ((c.float64 "cpus" ≤ 0 ∨ c.int64 "cpu-period" = 0 → checkCpuPeriod c = .ok ()) ∧
      (c.float64 "cpus" ≤ 0 ∨ c.int64 "cpu-quota" = 0 → checkCpuQuota c = .ok ())) ∧
    ((parseLimits E c).isOk = true → E.pidValid (c.string "pid") = true →
      E.usernsValid (c.string "userns") = true → ¬ (c.bool "detach" = true ∧ c.bool "rm" = true) →
      (∀ e, checkCpuPeriod c = .error e →
        (parseCreateOpts E c runtime imageName data env).2 = .error e) ∧
      (checkCpuPeriod c = .ok () → ∀ e, checkCpuQuota c = .error e →
        (parseCreateOpts E c runtime imageName data env).2 = .error e)) := by
  have hnot : ∀ e, (checkCpuPeriod c = .error e ∨ checkCpuQuota c = .error e) →
      (parseCreateOpts E c runtime imageName data env).2.isOk = false := by
    intro e he
    cases h : (parseCreateOpts E c runtime imageName data env).2 with
    | error _ => rfl
    | ok config =>
      obtain ⟨l, m, env1, config0, _, hm, _⟩ := parseCreateOpts_ok h
      obtain ⟨_, _, _, hp, hq, _⟩ := parseModes_ok hm
      rcases he with he | he
      · rw [hp] at he; contradiction
      · rw [hq] at he; contradiction
  refine ⟨?_, ?_, ?_, ?_⟩
  · intro hp hc
    have : checkCpuPeriod c = .error "--cpu-period and --cpus cannot be set together" := by
      unfold checkCpuPeriod
      rw [if_pos ⟨hp, hc⟩]
    exact ⟨this, hnot _ (Or.inl this)⟩
  · intro hq hc
    have : checkCpuQuota c = .error "--cpu-quota and --cpus cannot be set together" := by
      unfold checkCpuQuota
      rw [if_pos ⟨hq, hc⟩]
    exact ⟨this, hnot _ (Or.inr this)⟩
  · refine ⟨?_, ?_⟩
    · intro h
      unfold checkCpuPeriod
      rcases h with h | h
      · rw [if_neg (fun hh => not_lt.2 h hh.2)]
      · rw [if_neg (fun hh => hh.1 h)]
    · intro h
      unfold checkCpuQuota
      rcases h with h | h
      · rw [if_neg (fun hh => not_lt.2 h hh.2)]
      · rw [if_neg (fun hh => hh.1 h)]
  · intro hl hpid husr hdr
    obtain ⟨l, hl⟩ := (isOk_iff _).1 hl
    have hdr' : checkDetachRm c = .ok () := by
      unfold checkDetachRm
      by_cases hd : c.bool "detach" = true
      · have hr : c.bool "rm" = false := by
          cases hrm : c.bool "rm" with
          | false => rfl
          | true => exact absurd ⟨hd, hrm⟩ hdr
        simp [hr]
      · simp [hd]
    obtain ⟨h1, h2⟩ := parseModes_cpu E c runtime data hpid husr hdr'
    refine ⟨?_, ?_⟩
    · intro e he
      unfold parseCreateOpts
      rw [hl]
      dsimp only
      rw [h1 e he]
    · intro hp e he
      unfold parseCreateOpts
      rw [hl]
      dsimp only
      rw [h2 hp e he]

/-- C9 on samples: a CPU period with a CPU count, and a CPU quota with a CPU count. -/
theorem cpu_exclusion_checks_witness :
    (parseCreateOpts sampleExternals cpuPeriodRequest emptyRuntime "alpine" shImage
      defaultEnvVariables).2 = .error "--cpu-period and --cpus cannot be set together" ∧
    (parseCreateOpts sampleExternals cpuQuotaRequest emptyRuntime "alpine" shImage
      defaultEnvVariables).2 = .error "--cpu-quota and --cpus cannot be set together" :=
  ⟨((cpu_exclusion_checks sampleExternals cpuPeriodRequest emptyRuntime "alpine" shImage
      defaultEnvVariables).2.2.2 rfl rfl rfl (by decide)).1 _
      ((cpu_exclusion_checks sampleExternals cpuPeriodRequest emptyRuntime "alpine" shImage
        defaultEnvVariables).1 (by decide) (by norm_num [cpuPeriodRequest])).1,
   ((cpu_exclusion_checks sampleExternals cpuQuotaRequest emptyRuntime "alpine" shImage
      defaultEnvVariables).2.2.2 rfl rfl rfl (by decide)).2
      ((cpu_exclusion_checks sampleExternals cpuQuotaRequest emptyRuntime "alpine" shImage
        defaultEnvVariables).2.2.1.1 (Or.inr rfl)) _
      ((cpu_exclusion_checks sampleExternals cpuQuotaRequest emptyRuntime "alpine" shImage
        defaultEnvVariables).2.1 (by decide) (by norm_num [cpuQuotaRequest])).1⟩

/-! ## The size parser against the size strings of the spec -/

/-- What a successful `parseModes` returns. -/
theorem parseModes_fields {E : Externals} {c : Context} {runtime : Runtime} {data : ImageData}
    {m : Modes} (h : parseModes E c runtime data = .ok m) :
    resolveShmDir E runtime (c.string "ipc") = .ok m.shmDir ∧ m.pidMode = c.string "pid" ∧
    m.usernsMode = c.string "userns" ∧ m.utsMode = c.string "uts" ∧
    m.ipcMode = c.string "ipc" := by
  unfold parseModes at h
  simp only [bind, Except.bind] at h
  repeat' split at h
  all_goals first | contradiction | skip
  all_goals
    simp only [pure, Except.pure] at h
    injection h with h
    subst h
    exact ⟨by assumption, rfl, rfl, rfl, rfl⟩

/-- An error of `parseModes` after accepted limits is the error of `parseCreateOpts`. -/
theorem parseCreateOpts_modes_error (E : Externals) (c : Context) (runtime : Runtime)
    (imageName : String) (data : ImageData) (env : StrMap)
    (hl : (parseLimits E c).isOk = true) (e : String)
    (he : parseModes E c runtime data = .error e) :
    (parseCreateOpts E c runtime imageName data env).2 = .error e := by
  obtain ⟨l, hl⟩ := (isOk_iff _).1 hl
  unfold parseCreateOpts
  rw [hl]
  dsimp only
  rw [he]

/-- Once the struct literal is built, `parseCreateOpts` returns what lines 552-566 return. -/
theorem parseCreateOpts_finish (E : Externals) (c : Context) (runtime : Runtime)
    (imageName : String) (data : ImageData) (env : StrMap) (l : Limits) (m : Modes)
    (env1 : StrMap) (config0 : CreateConfig)
    (hl : parseLimits E c = .ok l) (hm : parseModes E c runtime data = .ok m)
    (hkv : E.readKVStrings (mergeImageEnv env data.ContainerConfig.Env)
      (c.stringSlice "env-file") (c.stringSlice "env") = (env1, none))
    (hcfg : assembleConfig E c runtime imageName data l m env1 = .ok config0) :
    parseCreateOpts E c runtime imageName data env = (env1, finishConfig E c config0) := by
  unfold parseCreateOpts
  rw [hl, hm]
  dsimp only
  rw [hkv]
  dsimp only
  rw [hcfg]

/-- A configuration that `parseCreateOpts` returns agrees with the struct literal outside the
security fields. -/
theorem parseCreateOpts_literal {E : Externals} {c : Context} {runtime : Runtime}
    {imageName : String} {data : ImageData} {env : StrMap} {config : CreateConfig}
    (h : (parseCreateOpts E c runtime imageName data env).2 = .ok config) :
    ∃ l m env1 labels portBindings shmSize networkMode,
      parseLimits E c = .ok l ∧ parseModes E c runtime data = .ok m ∧
      withoutSecurity config = withoutSecurity
        (newCreateConfig c runtime imageName data l m env1 labels (resolveWorkDir c data)
          (resolveEntrypoint c data) (resolveCommand c data) portBindings shmSize
          networkMode) := by
  obtain ⟨l, m, env1, config0, hl, hm, _, hcfg, hfin⟩ := parseCreateOpts_ok h
  obtain ⟨_, labels, ports, shm, net, hlit⟩ := assembleConfig_ok hcfg
  have hframe := finishConfig_ok hfin
  subst hlit
  exact ⟨l, m, env1, labels, ports, shm, net, hl, hm, hframe⟩

/-- For a configuration that is not privileged lines 552-566 run `parseSecurityOpt` and then
the resource check. -/
theorem finishConfig_unprivileged (E : Externals) (c : Context) (config0 : CreateConfig)
    (hpriv : config0.Privileged = false) :
    finishConfig E c config0 =
      match parseSecurityOpt E config0 (c.stringSlice "security-opt") with
      | (_, some err) => .error err
      | (config, none) =>
        match E.verifyContainerResources
            { config with SecurityOpts := c.stringSlice "security-opt" } false with
        | .error err => .error err
        | .ok _ => .ok { config with SecurityOpts := c.stringSlice "security-opt" } := by
  have hsec : (if (!config0.Privileged) = true then
      parseSecurityOpt E config0 (c.stringSlice "security-opt") else (config0, none))
      = parseSecurityOpt E config0 (c.stringSlice "security-opt") := by
    simp [hpriv]
  unfold finishConfig
  dsimp only
  rw [hsec]

/-- A failed lookup of the PID peer is the error of `pidLabelOpts`. -/
theorem pidLabelOpts_lookup_error (E : Externals) (config : CreateConfig)
    (labelOpts : List String) (err : String)
    (hhost : E.pidIsHost config.PidMode = false) (hctr : E.pidIsContainer config.PidMode = true)
    (hlk : config.Runtime.LookupContainer (E.pidContainer config.PidMode) = .error err) :
    pidLabelOpts E config labelOpts =
      .error (Wrapf err ("container " ++ E.quote (E.pidContainer config.PidMode)
        ++ " not found")) := by
  unfold pidLabelOpts
  rw [hhost, hctr, hlk]
  rfl

/-- A failed lookup of the IPC peer is the error of `resolveShmDir`. -/
theorem resolveShmDir_lookup_error (E : Externals) (runtime : Runtime) (mode : String)
    (err : String) (hhost : E.ipcIsHost mode = false) (hctr : E.ipcIsContainer mode = true)
    (hlk : runtime.LookupContainer (E.ipcContainer mode) = .error err) :
    resolveShmDir E runtime mode =
      .error (Wrapf err ("container " ++ E.quote (E.ipcContainer mode) ++ " not found")) := by
  unfold resolveShmDir
  rw [hhost, hctr, hlk]
  rfl

/-- Once the checks before line 325 pass, an error of `resolveShmDir` is the error of
`parseModes`. -/
theorem parseModes_shmDir_error (E : Externals) (c : Context) (runtime : Runtime)
    (data : ImageData) (hpid : E.pidValid (c.string "pid") = true)
    (husr : E.usernsValid (c.string "userns") = true) (hdr : checkDetachRm c = .ok ())
    (hp : checkCpuPeriod c = .ok ()) (hq : checkCpuQuota c = .ok ())
    (huts : E.utsValid (c.string "uts") = true) (hipc : E.ipcValid (c.string "ipc") = true)
    (e : String) (he : resolveShmDir E runtime (c.string "ipc") = .error e) :
    parseModes E c runtime data = .error e := by
  unfold parseModes
  simp [bind, Except.bind, hpid, husr, hdr, hp, hq, huts, hipc, he, pure, Except.pure]

/-! ## Namespace peers and namespace modes (C11, C12) -/

/-- C11 as stated fails: with `--privileged --pid container:ghost` and no container `ghost`
in the registry, the PID mode is Container-mode, the lookup of its peer would fail, and
`parseCreateOpts` returns a configuration that carries the mode. -/
theorem privileged_pid_peer_not_looked_up :
    sampleExternals.pidIsContainer (ghostPidPrivilegedRequest.string "pid") = true ∧
    (emptyRuntime.LookupContainer
      (sampleExternals.pidContainer (ghostPidPrivilegedRequest.string "pid"))).isOk = false ∧
    (parseCreateOpts sampleExternals ghostPidPrivilegedRequest emptyRuntime "alpine" shImage
      defaultEnvVariables).2.map (fun config => (config.Privileged, config.PidMode))
      = .ok (true, "container:ghost") :=
  ⟨rfl, rfl, rfl⟩

/-- C11, amended: when the IPC mode is Container-mode and its peer is absent from the
registry, `parseCreateOpts` returns no configuration whatever the other flags are, privileged
included, and its error is the container-not-found error of line 331 once the checks before
line 325 pass; when the PID mode is Container-mode, its peer is absent and the request is not
privileged, `parseCreateOpts` returns no configuration, and its error is the
container-not-found error of line 156 once the steps before line 552 pass. -/
theorem container_lookup_failure (E : Externals) (c : Context) (runtime : Runtime)
    (imageName : String) (data : ImageData) (env : StrMap) :
    (E.ipcIsHost (c.string "ipc") = false → E.ipcIsContainer (c.string "ipc") = true →
      ∀ err, runtime.LookupContainer (E.ipcContainer (c.string "ipc")) = .error err →
        (parseCreateOpts E c runtime imageName data env).2.isOk = false ∧
        ((parseLimits E c).isOk = true → E.pidValid (c.string "pid") = true →
          E.usernsValid (c.string "userns") = true → checkDetachRm c = .ok () →
          checkCpuPeriod c = .ok () → checkCpuQuota c = .ok () →
          E.utsValid (c.string "uts") = true → E.ipcValid (c.string "ipc") = true →
          (parseCreateOpts E c runtime imageName data env).2 =
            .error (Wrapf err ("container " ++ E.quote (E.ipcContainer (c.string "ipc"))
              ++ " not found")))) ∧
    (c.bool "privileged" = false → E.pidIsHost (c.string "pid") = false →
      E.pidIsContainer (c.string "pid") = true →
      ∀ err, runtime.LookupContainer (E.pidContainer (c.string "pid")) = .error err →
        (parseCreateOpts E c runtime imageName data env).2.isOk = false ∧
        ((parseLimits E c).isOk = true → (parseModes E c runtime data).isOk = true →
          (E.readKVStrings (mergeImageEnv env data.ContainerConfig.Env)
            (c.stringSlice "env-file") (c.stringSlice "env")).2 = none →
          (∀ l m env1, (assembleConfig E c runtime imageName data l m env1).isOk = true) →
          (parseCreateOpts E c runtime imageName data env).2 =
            .error (Wrapf err ("container " ++ E.quote (E.pidContainer (c.string "pid"))
              ++ " not found")))) := by
  refine ⟨?_, ?_⟩
  · intro hhost hctr err hlk
    have hshm := resolveShmDir_lookup_error E runtime (c.string "ipc") err hhost hctr hlk
    refine ⟨?_, ?_⟩
    · cases h : (parseCreateOpts E c runtime imageName data env).2 with
      | error _ => rfl
      | ok config =>
        obtain ⟨l, m, env1, config0, _, hm, _⟩ := parseCreateOpts_ok h
        have := (parseModes_fields hm).1
        rw [hshm] at this
        contradiction
    · intro hl hpid husr hdr hp hq huts hipc
      exact parseCreateOpts_modes_error E c runtime imageName data env hl _
        (parseModes_shmDir_error E c runtime data hpid husr hdr hp hq huts hipc _ hshm)
  · intro hpriv hhost hctr err hlk
    have hstage : ∀ l m env1 config0, parseModes E c runtime data = .ok m →
        assembleConfig E c runtime imageName data l m env1 = .ok config0 →
        finishConfig E c config0 = .error (Wrapf err ("container "
          ++ E.quote (E.pidContainer (c.string "pid")) ++ " not found")) := by
      intro l m env1 config0 hm hcfg
      obtain ⟨_, labels, ports, shm, net, hlit⟩ := assembleConfig_ok hcfg
      have hmode : config0.PidMode = c.string "pid" := by
        subst hlit
        exact (parseModes_fields hm).2.1
      have hrt : config0.Runtime = runtime := by
        subst hlit
        rfl
      have hp0 : config0.Privileged = false := by
        subst hlit
        exact hpriv
      have hpidErr := pidLabelOpts_lookup_error E config0 [] err
        (by rw [hmode]; exact hhost) (by rw [hmode]; exact hctr)
        (by rw [hmode, hrt]; exact hlk)
      rw [hmode] at hpidErr
      have hsec : parseSecurityOpt E config0 (c.stringSlice "security-opt") =
          (config0, some (Wrapf err ("container "
            ++ E.quote (E.pidContainer (c.string "pid")) ++ " not found"))) := by
        unfold parseSecurityOpt
        rw [hpidErr]
      rw [finishConfig_unprivileged E c config0 hp0, hsec]
    refine ⟨?_, ?_⟩
    · cases h : (parseCreateOpts E c runtime imageName data env).2 with
      | error _ => rfl
      | ok config =>
        obtain ⟨l, m, env1, config0, _, hm, _, hcfg, hfin⟩ := parseCreateOpts_ok h
        rw [hstage l m env1 config0 hm hcfg] at hfin
        contradiction
    · intro hl hm hkv hasm
      obtain ⟨l, hl⟩ := (isOk_iff _).1 hl
      obtain ⟨m, hm⟩ := (isOk_iff _).1 hm
      obtain ⟨config0, hcfg⟩ := (isOk_iff _).1 (hasm l m
        (E.readKVStrings (mergeImageEnv env data.ContainerConfig.Env)
          (c.stringSlice "env-file") (c.stringSlice "env")).1)
      have hkv' : E.readKVStrings (mergeImageEnv env data.ContainerConfig.Env)
          (c.stringSlice "env-file") (c.stringSlice "env") =
          ((E.readKVStrings (mergeImageEnv env data.ContainerConfig.Env)
            (c.stringSlice "env-file") (c.stringSlice "env")).1, none) := by
        rw [← hkv]
      rw [parseCreateOpts_finish E c runtime imageName data env l m _ config0 hl hm hkv' hcfg]
      exact hstage l m _ config0 hm hcfg

/-- C11 amended, on samples: a missing IPC peer with `--privileged`, and a missing PID peer
without it. -/
theorem container_lookup_failure_witness :
    (parseCreateOpts sampleExternals ghostIpcRequest emptyRuntime "alpine" shImage
      defaultEnvVariables).2
      = .error "container \"ghost\" not found: no container with name or ID ghost found" ∧
    (parseCreateOpts sampleExternals ghostPidRequest emptyRuntime "alpine" shImage
      defaultEnvVariables).2
      = .error "container \"ghost\" not found: no container with name or ID ghost found" :=
  ⟨((container_lookup_failure sampleExternals ghostIpcRequest emptyRuntime "alpine" shImage
      defaultEnvVariables).1 rfl rfl _ rfl).2 rfl rfl rfl rfl rfl rfl rfl rfl,
   ((container_lookup_failure sampleExternals ghostPidRequest emptyRuntime "alpine" shImage
      defaultEnvVariables).2 rfl rfl rfl _ rfl).2 rfl rfl rfl (fun _ _ _ => rfl)⟩

/-- C12: a configuration that `parseCreateOpts` returns carries the four mode strings of the
request and each of them satisfies its validity check; when the PID, user, UTS or IPC mode
string fails its check, no configuration is returned, and the error is the message naming
`--pid`, `--userns`, `--uts` or `--ipc` once the steps before that check pass. -/
theorem invalid_modes_rejected (E : Externals) (c : Context) (runtime : Runtime)
    (imageName : String) (data : ImageData) (env : StrMap) :
    (∀ config, (parseCreateOpts E c runtime imageName data env).2 = .ok config →
      config.PidMode = c.string "pid" ∧ config.UsernsMode = c.string "userns" ∧
      config.UtsMode = c.string "uts" ∧ config.IpcMode = c.string "ipc" ∧
      E.pidValid config.PidMode = true ∧ E.usernsValid config.UsernsMode = true ∧
      E.utsValid config.UtsMode = true ∧ E.ipcValid config.IpcMode = true) ∧
    (E.pidValid (c.string "pid") = false →
      (parseCreateOpts E c runtime imageName data env).2.isOk = false ∧
      ((parseLimits E c).isOk = true →
        (parseCreateOpts E c runtime imageName data env).2 =
          .error ("--pid " ++ E.quote (c.string "pid") ++ " is not valid"))) ∧
    (E.usernsValid (c.string "userns") = false →
      (parseCreateOpts E c runtime imageName data env).2.isOk = false ∧
      ((parseLimits E c).isOk = true → E.pidValid (c.string "pid") = true →
        (parseCreateOpts E c runtime imageName data env).2 =
          .error ("--userns " ++ E.quote (c.string "userns") ++ " is not valid"))) ∧
    (E.utsValid (c.string "uts") = false →
      (parseCreateOpts E c runtime imageName data env).2.isOk = false ∧
      ((parseLimits E c).isOk = true → E.pidValid (c.string "pid") = true →
        E.usernsValid (c.string "userns") = true → checkDetachRm c = .ok () →
        checkCpuPeriod c = .ok () → checkCpuQuota c = .ok () →
        (parseCreateOpts E c runtime imageName data env).2 =
          .error ("--uts " ++ E.quote (c.string "uts") ++ " is not valid"))) ∧
    (E.ipcValid (c.string "ipc") = false →
      (parseCreateOpts E c runtime imageName data env).2.isOk = false ∧
      ((parseLimits E c).isOk = true → E.pidValid (c.string "pid") = true →
        E.usernsValid (c.string "userns") = true → checkDetachRm c = .ok () →
        checkCpuPeriod c = .ok () → checkCpuQuota c = .ok () →
        E.utsValid (c.string "uts") = true →
        (parseCreateOpts E c runtime imageName data env).2 =
          .error ("--ipc " ++ E.quote (c.string "ipc") ++ " is not valid"))) := by
  have hok : ∀ config, (parseCreateOpts E c runtime imageName data env).2 = .ok config →
      config.PidMode = c.string "pid" ∧ config.UsernsMode = c.string "userns" ∧
      config.UtsMode = c.string "uts" ∧ config.IpcMode = c.string "ipc" ∧
      E.pidValid config.PidMode = true ∧ E.usernsValid config.UsernsMode = true ∧
      E.utsValid config.UtsMode = true ∧ E.ipcValid config.IpcMode = true := by
    intro config h
    obtain ⟨l, m, env1, labels, ports, shm, net, _, hm, hframe⟩ := parseCreateOpts_literal h
    obtain ⟨_, f1, f2, f3, f4⟩ := parseModes_fields hm
    obtain ⟨v1, v2, _, _, _, v3, v4⟩ := parseModes_ok hm
    have e1 : config.PidMode = c.string "pid" :=
      (congrArg CreateConfig.PidMode hframe).trans f1
    have e2 : config.UsernsMode = c.string "userns" :=
      (congrArg CreateConfig.UsernsMode hframe).trans f2
    have e3 : config.UtsMode = c.string "uts" :=
      (congrArg CreateConfig.UtsMode hframe).trans f3
    have e4 : config.IpcMode = c.string "ipc" :=
      (congrArg CreateConfig.IpcMode hframe).trans f4
    refine ⟨e1, e2, e3, e4, ?_, ?_, ?_, ?_⟩
    · rw [e1]; exact v1
    · rw [e2]; exact v2
    · rw [e3]; exact v3
    · rw [e4]; exact v4
  have hnot : ∀ {b : Bool}, b = false →
      ((∀ config, (parseCreateOpts E c runtime imageName data env).2 = .ok config →
        b = true) → (parseCreateOpts E c runtime imageName data env).2.isOk = false) := by
    intro b hb hall
    cases h : (parseCreateOpts E c runtime imageName data env).2 with
    | error _ => rfl
    | ok config =>
      have := hall config h
      rw [hb] at this
      contradiction
  refine ⟨hok, ?_, ?_, ?_, ?_⟩
  · intro hv
    refine ⟨hnot hv (fun config h => ?_), ?_⟩
    · obtain ⟨e1, _, _, _, v1, _⟩ := hok config h
      rw [e1] at v1
      exact v1
    · intro hl
      apply parseCreateOpts_modes_error E c runtime imageName data env hl
      unfold parseModes
      simp [bind, Except.bind, hv, throw, throwThe, MonadExceptOf.throw]
  · intro hv
    refine ⟨hnot hv (fun config h => ?_), ?_⟩
    · obtain ⟨_, e2, _, _, _, v2, _⟩ := hok config h
      rw [e2] at v2
      exact v2
    · intro hl hpid
      apply parseCreateOpts_modes_error E c runtime imageName data env hl
      unfold parseModes
      simp [bind, Except.bind, hv, hpid, pure, Except.pure, throw, throwThe,
        MonadExceptOf.throw]
  · intro hv
    refine ⟨hnot hv (fun config h => ?_), ?_⟩
    · obtain ⟨_, _, e3, _, _, _, v3, _⟩ := hok config h
      rw [e3] at v3
      exact v3
    · intro hl hpid husr hdr hp hq
      apply parseCreateOpts_modes_error E c runtime imageName data env hl
      unfold parseModes
      simp [bind, Except.bind, hv, hpid, husr, hdr, hp, hq, pure, Except.pure, throw,
        throwThe, MonadExceptOf.throw]
  · intro hv
    refine ⟨hnot hv (fun config h => ?_), ?_⟩
    · obtain ⟨_, _, _, e4, _, _, _, v4⟩ := hok config h
      rw [e4] at v4
      exact v4
    · intro hl hpid husr hdr hp hq huts
      apply parseCreateOpts_modes_error E c runtime imageName data env hl
      unfold parseModes
      simp [bind, Except.bind, hv, hpid, husr, hdr, hp, hq, huts, pure, Except.pure, throw,
        throwThe, MonadExceptOf.throw]

/-- C12 on a sample: `--uts bogus` is rejected with the message naming `--uts`. -/
theorem invalid_modes_rejected_witness :
    sampleExternals.utsValid (badUtsRequest.string "uts") = false ∧
    (parseCreateOpts sampleExternals badUtsRequest emptyRuntime "alpine" shImage
      defaultEnvVariables).2 = .error "--uts \"bogus\" is not valid" :=
  ⟨rfl, ((invalid_modes_rejected sampleExternals badUtsRequest emptyRuntime "alpine" shImage
      defaultEnvVariables).2.2.2.1 rfl).2 rfl rfl rfl rfl rfl rfl⟩

/-! ## Detach and remove-on-exit, working directory (C14, C15) -/

/-- C14: a request with both `--detach` and `--rm` yields no configuration, and its error is
the message of line 308 once the steps before line 307 pass; no configuration that
`parseCreateOpts` returns has both `Detach` and `Rm`. -/
theorem detach_rm_exclusive (E : Externals) (c : Context) (runtime : Runtime)
    (imageName : String) (data : ImageData) (env : StrMap) :
    (c.bool "detach" = true → c.bool "rm" = true →
      (parseCreateOpts E c runtime imageName data env).2.isOk = false ∧
      ((parseLimits E c).isOk = true → E.pidValid (c.string "pid") = true →
        E.usernsValid (c.string "userns") = true →
        (parseCreateOpts E c runtime imageName data env).2 =
          .error "--rm and --detach can not be specified together")) ∧
    (∀ config, (parseCreateOpts E c runtime imageName data env).2 = .ok config →
      ¬ (config.Detach = true ∧ config.Rm = true)) := by
  have hok : ∀ config, (parseCreateOpts E c runtime imageName data env).2 = .ok config →
      ¬ (config.Detach = true ∧ config.Rm = true) := by
    intro config h
    obtain ⟨l, m, env1, labels, ports, shm, net, _, hm, hframe⟩ := parseCreateOpts_literal h
    obtain ⟨_, _, hdr, _⟩ := parseModes_ok hm
    have e1 : config.Detach = c.bool "detach" := congrArg CreateConfig.Detach hframe
    have e2 : config.Rm = c.bool "rm" := congrArg CreateConfig.Rm hframe
    rw [e1, e2]
    rintro ⟨hd, hr⟩
    unfold checkDetachRm at hdr
    rw [hd, hr] at hdr
    simp at hdr
  refine ⟨?_, hok⟩
  intro hd hr
  refine ⟨?_, ?_⟩
  · cases h : (parseCreateOpts E c runtime imageName data env).2 with
    | error _ => rfl
    | ok config =>
      obtain ⟨l, m, env1, labels, ports, shm, net, _, _, hframe⟩ := parseCreateOpts_literal h
      have e1 : config.Detach = c.bool "detach" := congrArg CreateConfig.Detach hframe
      have e2 : config.Rm = c.bool "rm" := congrArg CreateConfig.Rm hframe
      exact absurd ⟨e1.trans hd, e2.trans hr⟩ (hok config h)
  · intro hl hpid husr
    apply parseCreateOpts_modes_error E c runtime imageName data env hl
    have hdr : checkDetachRm c = .error "--rm and --detach can not be specified together" := by
      unfold checkDetachRm
      rw [hd, hr]
      rfl
    unfold parseModes
    simp [bind, Except.bind, hpid, husr, hdr, pure, Except.pure]

/-- C14 on a sample: `--detach --rm`. -/
theorem detach_rm_exclusive_witness :
    (parseCreateOpts sampleExternals detachRmRequest emptyRuntime "alpine" shImage
      defaultEnvVariables).2 = .error "--rm and --detach can not be specified together" :=
  ((detach_rm_exclusive sampleExternals detachRmRequest emptyRuntime "alpine" shImage
    defaultEnvVariables).1 rfl rfl).2 rfl rfl rfl

/-- C15: the working directory is the value of `--workdir` when that flag is set, otherwise
the working directory of the image when it is not empty, otherwise `/`; a configuration that
`parseCreateOpts` returns carries it in `WorkDir`. -/
theorem workdir_resolution (E : Externals) (c : Context) (runtime : Runtime)
    (imageName : String) (data : ImageData) (env : StrMap) :
    (c.isSet "workdir" = true → resolveWorkDir c data = c.string "workdir") ∧
    (c.isSet "workdir" = false → data.ContainerConfig.WorkingDir ≠ "" →
      resolveWorkDir c data = data.ContainerConfig.WorkingDir) ∧
    (c.isSet "workdir" = false → data.ContainerConfig.WorkingDir = "" →
      resolveWorkDir c data = "/") ∧
    (∀ config, (parseCreateOpts E c runtime imageName data env).2 = .ok config →
      config.WorkDir = resolveWorkDir c data) := by
  refine ⟨?_, ?_, ?_, ?_⟩
  · intro h
    unfold resolveWorkDir
    rw [if_pos h]
  · intro h hw
    unfold resolveWorkDir
    rw [h]
    simp [hw]
  · intro h hw
    unfold resolveWorkDir
    rw [h]
    simp [hw]
  · intro config h
    obtain ⟨l, m, env1, labels, ports, shm, net, _, _, hframe⟩ := parseCreateOpts_literal h
    exact congrArg CreateConfig.WorkDir hframe

/-- C15 on samples: `--workdir /srv` over an image with `/app`, the image's `/app` without the
flag, and `/` for an image without working directory. -/
theorem workdir_resolution_witness :
    (parseCreateOpts sampleExternals workdirRequest emptyRuntime "app" appImage
      defaultEnvVariables).2.map (fun config => config.WorkDir) = .ok "/srv" ∧
    resolveWorkDir plainRequest appImage = "/app" ∧
    resolveWorkDir plainRequest shImage = "/" :=
  ⟨rfl,
   (workdir_resolution sampleExternals plainRequest emptyRuntime "app" appImage
      defaultEnvVariables).2.1 rfl (by decide),
   (workdir_resolution sampleExternals plainRequest emptyRuntime "alpine" shImage
      defaultEnvVariables).2.2.1 rfl rfl⟩

/-! ## Order of the label components (C16) -/

theorem pidLabelOpts_ok {E : Externals} {config : CreateConfig} {labelOpts l0 : List String}
    (h : pidLabelOpts E config labelOpts = .ok l0) :
    l0 = labelOpts ++ pidComponents E config := by
  unfold pidLabelOpts at h
  unfold pidComponents namespaceComponents
  split at h
  · rename_i hh
    injection h with h
    rw [if_pos hh, h]
  · rename_i hh
    rw [if_neg hh]
    split at h
    · rename_i hc
      rw [if_pos hc]
      split at h
      · contradiction
      · rename_i ctr hlk
        injection h with h
        rw [hlk, h]
    · rename_i hc
      injection h with h
      rw [if_neg hc, ← h, List.append_nil]

theorem ipcLabelOpts_ok {E : Externals} {config : CreateConfig} {labelOpts l1 : List String}
    (h : ipcLabelOpts E config labelOpts = .ok l1) :
    l1 = labelOpts ++ ipcComponents E config := by
  unfold ipcLabelOpts at h
  unfold ipcComponents namespaceComponents
  split at h
  · rename_i hh
    injection h with h
    rw [if_pos hh, h]
  · rename_i hh
    rw [if_neg hh]
    split at h
    · rename_i hc
      rw [if_pos hc]
      split at h
      · contradiction
      · rename_i ctr hlk
        injection h with h
        rw [hlk, h]
    · rename_i hc
      injection h with h
      rw [if_neg hc, ← h, List.append_nil]

/-- Without error, the loop appends the value of each label option, in input order. -/
theorem securityOptLoop_labelOpts (E : Externals) (opts : List String) :
    ∀ (config : CreateConfig) (labelOpts : List String),
      (securityOptLoop E opts config labelOpts).2.2 = none →
      (securityOptLoop E opts config labelOpts).2.1 = labelOpts ++ labelValues opts := by
  have hl : '=' ∉ "label".toList := by decide
  induction opts with
  | nil => intro config labelOpts _; simp [securityOptLoop, labelValues]
  | cons opt rest ih =>
    intro config labelOpts
    rw [securityOptLoop_cons]
    by_cases h0 : opt = "no-new-privileges"
    · rw [if_pos h0]
      intro herr
      rw [ih _ _ herr]
      subst h0
      simp [labelValues, List.filterMap_cons, hasKey_token _ hl]
    · rw [if_neg h0]
      by_cases h1 : hasKey "label" opt = true
      · rw [if_pos h1]
        intro herr
        rw [ih _ _ herr]
        simp [labelValues, List.filterMap_cons, h1]
      · rw [if_neg h1]
        have h1f : hasKey "label" opt = false := by simpa using h1
        by_cases h2 : hasKey "apparmor" opt = true
        · rw [if_pos h2]
          intro herr
          rw [ih _ _ herr]
          simp [labelValues, List.filterMap_cons, h1f]
        · rw [if_neg h2]
          by_cases h3 : hasKey "seccomp" opt = true
          · rw [if_pos h3]
            intro herr
            rw [ih _ _ herr]
            simp [labelValues, List.filterMap_cons, h1f]
          · rw [if_neg h3]
            intro herr
            simp at herr

/-- The loop does not write the two labels. -/
theorem securityOptLoop_labels (E : Externals) (opts : List String) :
    ∀ (config : CreateConfig) (labelOpts : List String),
      (securityOptLoop E opts config labelOpts).1.ProcessLabel = config.ProcessLabel ∧
      (securityOptLoop E opts config labelOpts).1.MountLabel = config.MountLabel := by
  induction opts with
  | nil => intro config labelOpts; exact ⟨rfl, rfl⟩
  | cons opt rest ih =>
    intro config labelOpts
    rw [securityOptLoop_cons]
    split
    · exact ih _ _
    · split
      · exact ih _ _
      · split
        · exact ih _ _
        · split
          · exact ih _ _
          · exact ⟨rfl, rfl⟩

/-- The seccomp default does not write the two labels. -/
theorem seccompDefault_labels (E : Externals) (config : CreateConfig) :
    (seccompDefault E config).1.ProcessLabel = config.ProcessLabel ∧
    (seccompDefault E config).1.MountLabel = config.MountLabel := by
  unfold seccompDefault
  split
  · split
    · exact ⟨rfl, rfl⟩
    · exact ⟨rfl, rfl⟩
    · split <;> exact ⟨rfl, rfl⟩
  · exact ⟨rfl, rfl⟩

/-- C16: when the namespace lookups, the option loop and the seccomp default of
`parseSecurityOpt` pass, the list handed to `label.InitLabels` is the PID-derived components,
then the IPC-derived components, then the value of each `label=<v>` option in input order, and
the labels and the error that `InitLabels` returns for it are written over the configuration
left by the loop and the seccomp default and returned. In every case either an earlier step
fails, its error is returned and the two labels are as before the call, or the result is that
of `InitLabels` on the list above. -/
theorem label_components_order (E : Externals) (config : CreateConfig) (opts : List String) :
    (∀ l0 l1 config1 l2 config2, pidLabelOpts E config [] = .ok l0 →
      ipcLabelOpts E config l0 = .ok l1 →
      securityOptLoop E opts config l1 = (config1, l2, none) →
      seccompDefault E config1 = (config2, none) →
      l0 = pidComponents E config ∧
      l1 = pidComponents E config ++ ipcComponents E config ∧
      l2 = pidComponents E config ++ ipcComponents E config ++ labelValues opts ∧
      parseSecurityOpt E config opts =
        ({ config2 with ProcessLabel := (E.InitLabels l2).1,
                        MountLabel := (E.InitLabels l2).2.1 }, (E.InitLabels l2).2.2)) ∧
    ((∃ e, (parseSecurityOpt E config opts).2 = some e ∧
        (parseSecurityOpt E config opts).1.ProcessLabel = config.ProcessLabel ∧
        (parseSecurityOpt E config opts).1.MountLabel = config.MountLabel ∧
        (pidLabelOpts E config [] = .error e ∨
         ipcLabelOpts E config (pidComponents E config) = .error e ∨
         (securityOptLoop E opts config
            (pidComponents E config ++ ipcComponents E config)).2.2 = some e ∨
         (seccompDefault E (securityOptLoop E opts config
            (pidComponents E config ++ ipcComponents E config)).1).2 = some e)) ∨
     (∃ config2,
        seccompDefault E (securityOptLoop E opts config
          (pidComponents E config ++ ipcComponents E config)).1 = (config2, none) ∧
        parseSecurityOpt E config opts =
          ({ config2 with
              ProcessLabel := (E.InitLabels (pidComponents E config ++ ipcComponents E config
                ++ labelValues opts)).1,
              MountLabel := (E.InitLabels (pidComponents E config ++ ipcComponents E config
                ++ labelValues opts)).2.1 },
            (E.InitLabels (pidComponents E config ++ ipcComponents E config
              ++ labelValues opts)).2.2))) := by
  have hcomps : ∀ l0 l1 config1 l2, pidLabelOpts E config [] = .ok l0 →
      ipcLabelOpts E config l0 = .ok l1 →
      securityOptLoop E opts config l1 = (config1, l2, none) →
      l0 = pidComponents E config ∧
      l1 = pidComponents E config ++ ipcComponents E config ∧
      l2 = pidComponents E config ++ ipcComponents E config ++ labelValues opts := by
    intro l0 l1 config1 l2 h0 h1 hloop
    have e0 : l0 = pidComponents E config := by
      rw [pidLabelOpts_ok h0, List.nil_append]
    have e1 : l1 = pidComponents E config ++ ipcComponents E config := by
      rw [ipcLabelOpts_ok h1, e0]
    have e2 := securityOptLoop_labelOpts E opts config l1 (by rw [hloop])
    rw [hloop] at e2
    exact ⟨e0, e1, by rw [← e1]; exact e2⟩
  refine ⟨?_, ?_⟩
  · intro l0 l1 config1 l2 config2 h0 h1 hloop hsec
    obtain ⟨e0, e1, e2⟩ := hcomps l0 l1 config1 l2 h0 h1 hloop
    refine ⟨e0, e1, e2, ?_⟩
    rw [parseSecurityOpt_after_lookups E config opts l0 l1 h0 h1, hloop]
    dsimp only
    rw [hsec]
  · rcases parseSecurityOpt_stages E config opts with
      ⟨e, h0, h⟩ | ⟨l0, e, h0, h1, h⟩ | ⟨l0, l1, config1, l2, e, h0, h1, hloop, h⟩ |
      ⟨l0, l1, config1, l2, config2, e, h0, h1, hloop, hsec, h⟩ |
      ⟨l0, l1, config1, l2, config2, h0, h1, hloop, hsec, h⟩
    · left
      exact ⟨e, by rw [h], by rw [h], by rw [h], Or.inl h0⟩
    · left
      have e0 : l0 = pidComponents E config := by
        rw [pidLabelOpts_ok h0, List.nil_append]
      rw [e0] at h1
      exact ⟨e, by rw [h], by rw [h], by rw [h], Or.inr (Or.inl h1)⟩
    · left
      have e0 : l0 = pidComponents E config := by
        rw [pidLabelOpts_ok h0, List.nil_append]
      have e1 : l1 = pidComponents E config ++ ipcComponents E config := by
        rw [ipcLabelOpts_ok h1, e0]
      have hlab := securityOptLoop_labels E opts config l1
      rw [hloop] at hlab
      rw [e1] at hloop
      exact ⟨e, by rw [h], by rw [h]; exact hlab.1, by rw [h]; exact hlab.2,
        Or.inr (Or.inr (Or.inl (by rw [hloop])))⟩
    · left
      obtain ⟨e0, e1, _⟩ := hcomps l0 l1 config1 l2 h0 h1 hloop
      have hlab := securityOptLoop_labels E opts config l1
      rw [hloop] at hlab
      have hlab2 := seccompDefault_labels E config1
      rw [hsec] at hlab2
      rw [e1] at hloop
      exact ⟨e, by rw [h], by rw [h]; exact hlab2.1.trans hlab.1,
        by rw [h]; exact hlab2.2.trans hlab.2,
        Or.inr (Or.inr (Or.inr (by rw [hloop, hsec])))⟩
    · right
      obtain ⟨e0, e1, e2⟩ := hcomps l0 l1 config1 l2 h0 h1 hloop
      rw [e1] at hloop
      refine ⟨config2, by rw [hloop]; exact hsec, ?_⟩
      rw [h, e2]

/-- C16 on a sample: PID mode `host`, IPC mode `container:db`, two label options around the
bare token. -/
theorem label_components_order_witness :
    pidComponents sampleExternals sharedConfig ++ ipcComponents sampleExternals sharedConfig
      ++ labelValues labelSecurityOpts
      = ["disable", "system_u:system_r:container_t:s0:c1,c2", "type:svirt_t", "level:s0"] ∧
    (parseSecurityOpt sampleExternals sharedConfig labelSecurityOpts).2 = none :=
  ⟨((label_components_order sampleExternals sharedConfig labelSecurityOpts).1
      ["disable"] ["disable", "system_u:system_r:container_t:s0:c1,c2"]
      { sharedConfig with NoNewPrivs := true }
      ["disable", "system_u:system_r:container_t:s0:c1,c2", "type:svirt_t", "level:s0"]
      { sharedConfig with NoNewPrivs := true,
                          SeccompProfilePath := "/usr/share/containers/seccomp.json" }
      rfl rfl rfl rfl).2.2.1.symm, rfl⟩

/-! ## Lemmas on maps -/

theorem StrMap.get?_set (m : StrMap) (k v k' : String) :
    (StrMap.set m k v).get? k' = if k' = k then some v else m.get? k' := by
  induction m with
  | nil =>
    by_cases h : k' = k
    · subst h; simp [StrMap.set, StrMap.get?]
    · have h2 : ¬ k = k' := fun e => h e.symm
      simp [StrMap.set, StrMap.get?, h, h2]
  | cons kv rest ih =>
    obtain ⟨k0, v0⟩ := kv
    unfold StrMap.get? at ih ⊢
    by_cases h0 : k0 = k
    · subst h0
      by_cases h : k' = k0
      · subst h; simp [StrMap.set]
      · have h2 : ¬ k0 = k' := fun e => h e.symm
        simp [StrMap.set, h, h2]
    · by_cases h : k' = k
      · subst h
        have := ih
        simp only [if_true] at this
        simp [StrMap.set, h0, this]
      · simp only [if_neg h] at ih
        by_cases h3 : k0 = k'
        · subst h3; simp [StrMap.set, h0, h]
        · simp [StrMap.set, h0, h, h3, ih]

theorem StrMap.keys_set (m : StrMap) (k v : String) :
    (StrMap.set m k v).map Prod.fst =
      if k ∈ m.map Prod.fst then m.map Prod.fst else m.map Prod.fst ++ [k] := by
  induction m with
  | nil => simp [StrMap.set]
  | cons kv rest ih =>
    obtain ⟨k0, v0⟩ := kv
    by_cases h0 : k0 = k
    · subst h0; simp [StrMap.set]
    · have h1 : ¬ k = k0 := fun e => h0 e.symm
      by_cases hmem : k ∈ rest.map Prod.fst
      · rw [if_pos hmem] at ih
        have hmem2 : k ∈ ((k0, v0) :: rest).map Prod.fst := by
          simp only [List.map_cons, List.mem_cons]
          exact Or.inr hmem
        rw [if_pos hmem2]
        simp [StrMap.set, h0, ih]
      · rw [if_neg hmem] at ih
        have hmem2 : ¬ k ∈ ((k0, v0) :: rest).map Prod.fst := by
          simp only [List.map_cons, List.mem_cons]
          rintro (e | e)
          · exact h1 e
          · exact hmem e
        rw [if_neg hmem2]
        simp [StrMap.set, h0, ih]

theorem StrMap.get?_eq_none (m : StrMap) (k : String) (h : k ∉ m.map Prod.fst) :
    m.get? k = none := by
  induction m with
  | nil => rfl
  | cons kv rest ih =>
    obtain ⟨k0, v0⟩ := kv
    have h0 : ¬ k0 = k := fun e => h (by simp [e])
    have hr : k ∉ rest.map Prod.fst := fun e =>
      h (by simp only [List.map_cons, List.mem_cons]; exact Or.inr e)
    have := ih hr
    unfold StrMap.get? at this ⊢
    simp [h0, this]

theorem StrMap.has_iff (m : StrMap) (k : String) :
    m.has k = true ↔ k ∈ m.map Prod.fst := by
  unfold StrMap.has
  simp only [List.any_eq_true, List.mem_map, beq_iff_eq]

/-- Two maps with the same keys in the same order, each once, and the same values are
equal. -/
theorem StrMap.eq_of_keys_get? : ∀ (m1 m2 : StrMap), m1.map Prod.fst = m2.map Prod.fst →
    (m1.map Prod.fst).Nodup → (∀ k, m1.get? k = m2.get? k) → m1 = m2 := by
  intro m1
  induction m1 with
  | nil =>
    intro m2 hk _ _
    cases m2 with
    | nil => rfl
    | cons a b => simp at hk
  | cons kv t1 ih =>
    intro m2 hk hnd hget
    cases m2 with
    | nil => simp at hk
    | cons kv2 t2 =>
      obtain ⟨k1, v1⟩ := kv
      obtain ⟨k2, v2⟩ := kv2
      simp only [List.map_cons, List.cons.injEq] at hk
      obtain ⟨hk12, hkt⟩ := hk
      subst hk12
      simp only [List.map_cons, List.nodup_cons] at hnd
      obtain ⟨hnot, hndt⟩ := hnd
      have hv : v1 = v2 := by
        have := hget k1
        simpa [StrMap.get?] using this
      subst hv
      have htail : t1 = t2 := by
        apply ih t2 hkt hndt
        intro k
        by_cases hkk : k1 = k
        · subst hkk
          rw [StrMap.get?_eq_none t1 k1 hnot, StrMap.get?_eq_none t2 k1 (hkt ▸ hnot)]
        · have := hget k
          simpa [StrMap.get?, hkk] using this
      rw [htail]

theorem applyWrites_append (m : StrMap) (a b : List (String × String)) :
    applyWrites m (a ++ b) = applyWrites (applyWrites m a) b := by
  induction a generalizing m with
  | nil => rfl
  | cons w rest ih =>
    obtain ⟨k, v⟩ := w
    simp only [List.cons_append, applyWrites]
    exact ih _

theorem mergeImageEnv_eq (env : StrMap) (es : List String) :
    mergeImageEnv env es = applyWrites env (es.map envAssignment) := by
  induction es generalizing env with
  | nil => rfl
  | cons e rest ih =>
    simp only [mergeImageEnv, List.map_cons]
    by_cases h : (splitN2 e '=').length > 1
    · rw [if_pos h, ih]
      have : envAssignment e = ((splitN2 e '=').getD 0 "", (splitN2 e '=').getD 1 "") := by
        unfold envAssignment
        simp only [if_pos h]
      rw [this]
      rfl
    · rw [if_neg h, ih]
      have : envAssignment e = ((splitN2 e '=').getD 0 "", "") := by
        unfold envAssignment
        simp only [if_neg h]
      rw [this]
      rfl

theorem mem_keys_set (m : StrMap) (k v k' : String) (h : k' ∈ m.map Prod.fst ∨ k' = k) :
    k' ∈ (StrMap.set m k v).map Prod.fst := by
  rw [StrMap.keys_set]
  split
  · rename_i hmem
    rcases h with h | h
    · exact h
    · rw [h]; exact hmem
  · rcases h with h | h
    · exact List.mem_append_left _ h
    · rw [h]; simp

theorem mem_keys_applyWrites (ws : List (String × String)) :
    ∀ (m : StrMap) (k : String), (k ∈ m.map Prod.fst ∨ k ∈ ws.map Prod.fst) →
      k ∈ (applyWrites m ws).map Prod.fst := by
  induction ws with
  | nil =>
    intro m k h
    rcases h with h | h
    · exact h
    · simp at h
  | cons w rest ih =>
    intro m k h
    obtain ⟨k0, v0⟩ := w
    simp only [applyWrites]
    apply ih
    rcases h with h | h
    · exact Or.inl (mem_keys_set m k0 v0 k (Or.inl h))
    · simp only [List.map_cons, List.mem_cons] at h
      rcases h with h | h
      · exact Or.inl (mem_keys_set m k0 v0 k (Or.inr h))
      · exact Or.inr h

theorem keys_applyWrites (ws : List (String × String)) :
    ∀ (m : StrMap), (∀ k ∈ ws.map Prod.fst, k ∈ m.map Prod.fst) →
      (applyWrites m ws).map Prod.fst = m.map Prod.fst := by
  induction ws with
  | nil => intro m _; rfl
  | cons w rest ih =>
    intro m h
    obtain ⟨k0, v0⟩ := w
    have hk0 : k0 ∈ m.map Prod.fst := h k0 (by simp)
    have hset : (StrMap.set m k0 v0).map Prod.fst = m.map Prod.fst := by
      rw [StrMap.keys_set, if_pos hk0]
    simp only [applyWrites]
    rw [ih (StrMap.set m k0 v0) (by
      intro k hk
      rw [hset]
      exact h k (by simp only [List.map_cons, List.mem_cons]; exact Or.inr hk)), hset]

theorem nodup_keys_applyWrites (ws : List (String × String)) :
    ∀ (m : StrMap), (m.map Prod.fst).Nodup → ((applyWrites m ws).map Prod.fst).Nodup := by
  induction ws with
  | nil => intro m h; exact h
  | cons w rest ih =>
    intro m h
    obtain ⟨k0, v0⟩ := w
    simp only [applyWrites]
    apply ih
    rw [StrMap.keys_set]
    split
    · exact h
    · rename_i hmem
      rw [List.nodup_append]
      refine ⟨h, by simp, ?_⟩
      intro a ha hb
      simp only [List.mem_singleton] at hb
      exact hmem (hb ▸ ha)

/-- The value that a sequence of assignments leaves for a key: the last one assigned, or the
value before. -/
theorem get?_applyWrites (ws : List (String × String)) :
    ∀ (m : StrMap) (k : String),
      (applyWrites m ws).get? k =
        ws.foldl (fun o w => if k = w.1 then some w.2 else o) (m.get? k) := by
  induction ws with
  | nil => intro m k; rfl
  | cons w rest ih =>
    intro m k
    obtain ⟨k0, v0⟩ := w
    simp only [applyWrites, List.foldl_cons]
    rw [ih, StrMap.get?_set]

theorem foldl_assign_idem (k : String) (ws : List (String × String)) :
    ∀ (o o' : Option String), (k ∈ ws.map Prod.fst ∨ o = o') →
      ws.foldl (fun o w => if k = w.1 then some w.2 else o) o =
        ws.foldl (fun o w => if k = w.1 then some w.2 else o) o' := by
  induction ws with
  | nil =>
    intro o o' h
    rcases h with h | h
    · simp at h
    · simpa using h
  | cons w rest ih =>
    intro o o' h
    simp only [List.foldl_cons]
    apply ih
    by_cases hk : k = w.1
    · right; simp [hk]
    · rcases h with h | h
      · left
        simp only [List.map_cons, List.mem_cons] at h
        rcases h with h | h
        · exact absurd h hk
        · exact h
      · right; simp [hk, h]

theorem foldl_assign_not_mem (k : String) (ws : List (String × String))
    (h : k ∉ ws.map Prod.fst) (o : Option String) :
    ws.foldl (fun o w => if k = w.1 then some w.2 else o) o = o := by
  induction ws generalizing o with
  | nil => rfl
  | cons w rest ih =>
    simp only [List.map_cons, List.mem_cons, not_or] at h
    simp only [List.foldl_cons, if_neg h.1]
    exact ih h.2 o

/-- Making the same assignments a second time leaves the map as the first time left it. -/
theorem applyWrites_idem (m : StrMap) (ws : List (String × String))
    (hnd : (m.map Prod.fst).Nodup) :
    applyWrites (applyWrites m ws) ws = applyWrites m ws := by
  apply StrMap.eq_of_keys_get?
  · apply keys_applyWrites
    intro k hk
    exact mem_keys_applyWrites ws m k (Or.inr hk)
  · exact nodup_keys_applyWrites ws _ (nodup_keys_applyWrites ws m hnd)
  · intro k
    rw [get?_applyWrites ws (applyWrites m ws) k, get?_applyWrites ws m k]
    by_cases hk : k ∈ ws.map Prod.fst
    · exact foldl_assign_idem k ws _ _ (Or.inl hk)
    · rw [foldl_assign_not_mem k ws hk, foldl_assign_not_mem k ws hk]

/-! ## The shared-memory size (C17) -/

theorem wrapErr_ok {α : Type} {r : Except String α} {msg : String} {v : α}
    (h : wrapErr r msg = .ok v) : r = .ok v := by
  cases r with
  | error e => simp [wrapErr] at h
  | ok a => simpa [wrapErr] using h

/-- A successful `assembleConfig` has parsed the value of `--shm-size`. -/
theorem assembleConfig_shm {E : Externals} {c : Context} {runtime : Runtime}
    {imageName : String} {data : ImageData} {l : Limits} {m : Modes} {env : StrMap}
    {config : CreateConfig}
    (h : assembleConfig E c runtime imageName data l m env = .ok config) :
    E.FromHumanSize (c.string "shm-size") = .ok config.Resources.ShmSize := by
  unfold assembleConfig at h
  simp only [bind, Except.bind] at h
  repeat' split at h
  all_goals first | contradiction | skip
  all_goals
    simp only [pure, Except.pure] at h
    injection h with h
    subst h
    have hshm := wrapErr_ok ‹wrapErr (E.FromHumanSize (c.string "shm-size"))
      "unable to translate --shm-size" = Except.ok _›
    exact hshm

/-- C17, the code at an empty `--shm-size`: line 422 hands the empty string to
`units.FromHumanSize` without the guard that the memory flags and `--blkio-weight` have, so
when that parser rejects the empty string (as `FromHumanSize` does) no configuration is
returned, and the error is `unable to translate --shm-size` once the steps before line 422
pass; the guarded fields resolve the empty string to `0` whatever their parser does with
it. -/
theorem empty_shm_size_rejected (E : Externals) (c : Context) (runtime : Runtime)
    (imageName : String) (data : ImageData) (env : StrMap)
    (hshm : c.string "shm-size" = "") :
    (∀ e, E.FromHumanSize "" = .error e →
      (parseCreateOpts E c runtime imageName data env).2.isOk = false ∧
      ((parseLimits E c).isOk = true → (parseModes E c runtime data).isOk = true →
        (E.readKVStrings (mergeImageEnv env data.ContainerConfig.Env)
          (c.stringSlice "env-file") (c.stringSlice "env")).2 = none →
        (E.getAllLabels (c.stringSlice "label-file") (c.stringSlice "label")).isOk = true →
        resolveCommand c data ≠ [] →
        (E.ExposedPorts (c.stringSlice "expose") (c.stringSlice "publish")
          (c.bool "publish-all") data.ContainerConfig.ExposedPorts).isOk = true →
        (parseCreateOpts E c runtime imageName data env).2 =
          .error (Wrapf e "unable to translate --shm-size"))) ∧
    FromHumanSize "" = .error "invalid size: ''" ∧
    (∀ flag, c.string flag = "" → memoryField E c flag = .ok 0) ∧
    (c.string "blkio-weight" = "" → blkioWeightField E c = .ok 0) := by
  refine ⟨?_, rfl, ?_, ?_⟩
  · intro e he
    refine ⟨?_, ?_⟩
    · cases h : (parseCreateOpts E c runtime imageName data env).2 with
      | error _ => rfl
      | ok config =>
        obtain ⟨l, m, env1, config0, _, _, _, hcfg, _⟩ := parseCreateOpts_ok h
        have := assembleConfig_shm hcfg
        rw [hshm, he] at this
        contradiction
    · intro hl hm hkv hlab hcmd hports
      obtain ⟨l, hl⟩ := (isOk_iff _).1 hl
      obtain ⟨m, hm⟩ := (isOk_iff _).1 hm
      obtain ⟨labels, hlab⟩ := (isOk_iff _).1 hlab
      obtain ⟨ports, hports⟩ := (isOk_iff _).1 hports
      have hlen : ¬ (resolveCommand c data).length = 0 := by
        intro h0
        exact hcmd (List.length_eq_zero.1 h0)
      have hasm : ∀ env1, assembleConfig E c runtime imageName data l m env1 =
          .error (Wrapf e "unable to translate --shm-size") := by
        intro env1
        unfold assembleConfig
        simp [bind, Except.bind, wrapErr, hlab, hlen, hports, hshm, he, pure, Except.pure]
      unfold parseCreateOpts
      rw [hl, hm]
      dsimp only
      generalize E.readKVStrings (mergeImageEnv env data.ContainerConfig.Env)
        (c.stringSlice "env-file") (c.stringSlice "env") = kv at hkv
      obtain ⟨env1, err⟩ := kv
      dsimp only at hkv
      subst hkv
      dsimp only
      rw [hasm env1]
  · intro flag h
    unfold memoryField
    rw [if_neg (not_not.2 h)]
  · intro h
    unfold blkioWeightField
    rw [if_neg (not_not.2 h)]

/-- C17 at the failing input: a request whose `--shm-size` value is the empty string. -/
theorem empty_shm_size_rejected_witness :
    emptyShmRequest.string "shm-size" = "" ∧
    (parseCreateOpts sampleExternals emptyShmRequest emptyRuntime "alpine" shImage
      defaultEnvVariables).2 = .error "unable to translate --shm-size: invalid size: ''" :=
  ⟨rfl, ((empty_shm_size_rejected sampleExternals emptyShmRequest emptyRuntime "alpine" shImage
      defaultEnvVariables rfl).1 _ rfl).2 rfl rfl rfl rfl (by decide) rfl⟩

/-! ## Two runs over the shared environment table (C13, C18) -/

/-- The table that a call leaves when its steps before line 355 pass is the one that
`readKVStrings` leaves. -/
theorem parseCreateOpts_table (E : Externals) (c : Context) (runtime : Runtime)
    (imageName : String) (data : ImageData) (env : StrMap)
    (hl : (parseLimits E c).isOk = true) (hm : (parseModes E c runtime data).isOk = true) :
    (parseCreateOpts E c runtime imageName data env).1 =
      (E.readKVStrings (mergeImageEnv env data.ContainerConfig.Env)
        (c.stringSlice "env-file") (c.stringSlice "env")).1 := by
  obtain ⟨l, hl⟩ := (isOk_iff _).1 hl
  obtain ⟨m, hm⟩ := (isOk_iff _).1 hm
  unfold parseCreateOpts
  rw [hl, hm]
  dsimp only
  rcases E.readKVStrings (mergeImageEnv env data.ContainerConfig.Env)
    (c.stringSlice "env-file") (c.stringSlice "env") with ⟨env1, err⟩
  cases err with
  | some e => rfl
  | none =>
    dsimp only
    cases assembleConfig E c runtime imageName data l m env1 <;> rfl

/-- The environment of a returned configuration is the shared table as the call leaves it. -/
theorem parseCreateOpts_env {E : Externals} {c : Context} {runtime : Runtime}
    {imageName : String} {data : ImageData} {env : StrMap} {config : CreateConfig}
    (h : (parseCreateOpts E c runtime imageName data env).2 = .ok config) :
    config.Env = (parseCreateOpts E c runtime imageName data env).1 := by
  obtain ⟨l, m, env1, config0, hl, hm, hkv, hcfg, hfin⟩ := parseCreateOpts_ok h
  obtain ⟨_, labels, ports, shm, net, hlit⟩ := assembleConfig_ok hcfg
  have hframe := congrArg CreateConfig.Env (finishConfig_ok hfin)
  rw [parseCreateOpts_finish E c runtime imageName data env l m env1 config0 hl hm hkv hcfg]
  subst hlit
  exact hframe

/-- C13: when `readKVStrings` acts on the table as a fixed sequence of assignments (files and
process environment unchanged) and the table holds each key once, a second run of
`parseCreateOpts` on the table that a first run with the same inputs has left returns what
the first run returned, the same configuration or the same error, and leaves the table as it
found it; the environment of the configuration is that table in both runs. -/
theorem resolution_idempotent (E : Externals) (c : Context) (runtime : Runtime)
    (imageName : String) (data : ImageData) (env : StrMap)
    (writes : List (String × String)) (err : Option String)
    (hkeys : (env.map Prod.fst).Nodup)
    (hkv : ReadsAsWrites E (c.stringSlice "env-file") (c.stringSlice "env") writes err) :
    parseCreateOpts E c runtime imageName data
        (parseCreateOpts E c runtime imageName data env).1
      = parseCreateOpts E c runtime imageName data env ∧
    (∀ config1 config2, (parseCreateOpts E c runtime imageName data env).2 = .ok config1 →
      (parseCreateOpts E c runtime imageName data
        (parseCreateOpts E c runtime imageName data env).1).2 = .ok config2 →
      config2 = config1 ∧ config2.Env = config1.Env ∧
      config1.Env = (parseCreateOpts E c runtime imageName data env).1) := by
  have hmain : parseCreateOpts E c runtime imageName data
      (parseCreateOpts E c runtime imageName data env).1
      = parseCreateOpts E c runtime imageName data env := by
    unfold ReadsAsWrites at hkv
    have hT : ∀ T : StrMap, E.readKVStrings (mergeImageEnv T data.ContainerConfig.Env)
        (c.stringSlice "env-file") (c.stringSlice "env") =
        (applyWrites T (data.ContainerConfig.Env.map envAssignment ++ writes), err) := by
      intro T
      rw [hkv, mergeImageEnv_eq, ← applyWrites_append]
    have hidem := applyWrites_idem env
      (data.ContainerConfig.Env.map envAssignment ++ writes) hkeys
    cases hl : parseLimits E c with
    | error e =>
      have h1 : parseCreateOpts E c runtime imageName data env = (env, .error e) := by
        unfold parseCreateOpts
        rw [hl]
      rw [h1]
      exact h1
    | ok l =>
      cases hm : parseModes E c runtime data with
      | error e =>
        have h1 : parseCreateOpts E c runtime imageName data env = (env, .error e) := by
          unfold parseCreateOpts
          rw [hl, hm]
        rw [h1]
        exact h1
      | ok m =>
        have hform : ∀ T : StrMap, parseCreateOpts E c runtime imageName data T =
            match err with
            | some e =>
              (applyWrites T (data.ContainerConfig.Env.map envAssignment ++ writes),
                .error (Wrapf e "unable to process environment variables"))
            | none =>
              match assembleConfig E c runtime imageName data l m
                  (applyWrites T (data.ContainerConfig.Env.map envAssignment ++ writes)) with
              | .error e =>
                (applyWrites T (data.ContainerConfig.Env.map envAssignment ++ writes), .error e)
              | .ok config =>
                (applyWrites T (data.ContainerConfig.Env.map envAssignment ++ writes),
                  finishConfig E c config) := by
          intro T
          unfold parseCreateOpts
          rw [hl, hm]
          dsimp only
          rw [hT T]
          cases err <;> rfl
        have hfst : (parseCreateOpts E c runtime imageName data env).1 =
            applyWrites env (data.ContainerConfig.Env.map envAssignment ++ writes) := by
          rw [hform env]
          cases err with
          | some e => rfl
          | none =>
            dsimp only
            cases assembleConfig E c runtime imageName data l m
              (applyWrites env (data.ContainerConfig.Env.map envAssignment ++ writes)) <;> rfl
        rw [hfst, hform, hform env, hidem]
  refine ⟨hmain, ?_⟩
  intro config1 config2 h1 h2
  rw [hmain, h1] at h2
  injection h2 with h2
  subst h2
  exact ⟨rfl, rfl, parseCreateOpts_env h1⟩

/-- C13 on a sample: the request for `appImage` run twice from the initial table. -/
theorem resolution_idempotent_witness :
    parseCreateOpts sampleExternals plainRequest emptyRuntime "app" appImage
        (parseCreateOpts sampleExternals plainRequest emptyRuntime "app" appImage
          defaultEnvVariables).1
      = parseCreateOpts sampleExternals plainRequest emptyRuntime "app" appImage
          defaultEnvVariables ∧
    (parseCreateOpts sampleExternals plainRequest emptyRuntime "app" appImage
      defaultEnvVariables).2.map (fun config => config.Env)
      = .ok [("PATH", "/app/bin"), ("TERM", "xterm"), ("SECRET", "hunter2"), ("DEBUG", "")] :=
  ⟨(resolution_idempotent sampleExternals plainRequest emptyRuntime "app" appImage
      defaultEnvVariables [] none (by decide) (fun _ => rfl)).1, rfl⟩

theorem keyOf_of_not_mem (e : String) (h : '=' ∉ e.toList) : keyOf e = e := by
  unfold keyOf
  have hall : ∀ x ∈ e.toList, (fun ch => ch != '=') x = true := by
    intro x hx
    have : x ≠ '=' := fun hh => h (hh ▸ hx)
    simpa using this
  rw [List.takeWhile_eq_self_iff.2 hall]
  rfl

/-- The assignment made for an image environment entry: its key is the text before the first
`=`, its value the text after it, or the empty string when the entry has no `=`. -/
theorem envAssignment_eq (e : String) : envAssignment e = (keyOf e, entryValue e) := by
  unfold envAssignment entryValue
  rw [splitN2_eq]
  by_cases h : '=' ∈ e.toList
  · simp only [if_pos h]
    rfl
  · simp only [if_neg h]
    rw [keyOf_of_not_mem e h]
    rfl

/-- The value of a key after the image environment is merged: that of the last entry with
the key, or the value the table had. -/
theorem get?_mergeImageEnv (es : List String) :
    ∀ (env : StrMap) (key : String),
      (mergeImageEnv env es).get? key = lastEntryValue key (env.get? key) es := by
  induction es with
  | nil => intro env key; rfl
  | cons e rest ih =>
    intro env key
    rw [mergeImageEnv_eq, List.map_cons, envAssignment_eq]
    simp only [applyWrites]
    rw [← mergeImageEnv_eq, ih, StrMap.get?_set]
    show _ = (if keyOf e = key then lastEntryValue key (some (entryValue e)) rest
      else lastEntryValue key (env.get? key) rest)
    by_cases h : keyOf e = key
    · rw [if_pos h, if_pos h.symm]
    · rw [if_neg h, if_neg (fun hh => h hh.symm)]

/-- C18: `parseCreateOpts` writes the image environment into the shared table it is handed:
for every key the table then holds the value of the last image entry with that key (the text
after the entry's first `=`, the empty string for an entry without `=`), or the value the
table had before, such as the defaults `PATH` and `TERM`, when no entry has the key; every key
of the image environment is in the table handed to `readKVStrings`, and in the shared table
after the call once the steps before line 355 pass and `readKVStrings` only makes
assignments. So state leaks: there are two successive requests such that a key found only in
the image environment of the first is in the environment resolved for the second. -/
theorem image_env_leaks_into_shared_table (E : Externals) (c : Context) (runtime : Runtime)
    (imageName : String) (data : ImageData) (env : StrMap) :
    (∀ key, (mergeImageEnv env data.ContainerConfig.Env).get? key
      = lastEntryValue key (env.get? key) data.ContainerConfig.Env) ∧
    (∀ e ∈ data.ContainerConfig.Env,
      (mergeImageEnv env data.ContainerConfig.Env).has (keyOf e) = true) ∧
    ((parseLimits E c).isOk = true → (parseModes E c runtime data).isOk = true →
      ∀ writes err,
        ReadsAsWrites E (c.stringSlice "env-file") (c.stringSlice "env") writes err →
        (parseCreateOpts E c runtime imageName data env).1 =
          applyWrites (mergeImageEnv env data.ContainerConfig.Env) writes ∧
        ∀ e ∈ data.ContainerConfig.Env,
          (parseCreateOpts E c runtime imageName data env).1.has (keyOf e) = true) ∧
    (∃ (E0 : Externals) (c1 c2 : Context) (runtime0 : Runtime) (data1 data2 : ImageData)
        (key val : String),
      defaultEnvVariables.has key = false ∧
      (data1.ContainerConfig.Env.map keyOf).contains key = true ∧
      (data2.ContainerConfig.Env.map keyOf).contains key = false ∧
      c2.stringSlice "env" = [] ∧ c2.stringSlice "env-file" = [] ∧
      (parseCreateOpts E0 c2 runtime0 "second" data2
        (parseCreateOpts E0 c1 runtime0 "first" data1 defaultEnvVariables).1).2.map
          (fun config => config.Env.get? key) = .ok (some val)) := by
  have hmem : ∀ (T : StrMap) (ws : List (String × String)), ∀ e ∈ data.ContainerConfig.Env,
      (applyWrites (mergeImageEnv T data.ContainerConfig.Env) ws).has (keyOf e) = true := by
    intro T ws e he
    rw [StrMap.has_iff]
    apply mem_keys_applyWrites
    left
    rw [mergeImageEnv_eq]
    apply mem_keys_applyWrites
    right
    rw [List.map_map]
    refine List.mem_map.2 ⟨e, he, ?_⟩
    show (envAssignment e).1 = keyOf e
    rw [envAssignment_eq]
  refine ⟨get?_mergeImageEnv data.ContainerConfig.Env env, ?_, ?_, ?_⟩
  · intro e he
    exact hmem env [] e he
  · intro hl hm writes err hkv
    have htab : (parseCreateOpts E c runtime imageName data env).1 =
        applyWrites (mergeImageEnv env data.ContainerConfig.Env) writes := by
      rw [parseCreateOpts_table E c runtime imageName data env hl hm, hkv]
    refine ⟨htab, ?_⟩
    intro e he
    rw [htab]
    exact hmem env writes e he
  · exact ⟨sampleExternals, plainRequest, plainRequest, emptyRuntime, appImage, shImage,
      "SECRET", "hunter2", rfl, rfl, rfl, rfl, rfl, rfl⟩

/-- C18 on a sample: after the request for `appImage` the shared table holds the keys of its
environment, and the next request, for an image without `SECRET`, resolves `SECRET`. -/
theorem image_env_leaks_into_shared_table_witness :
    (∀ e ∈ appImage.ContainerConfig.Env,
      (parseCreateOpts sampleExternals plainRequest emptyRuntime "app" appImage
        defaultEnvVariables).1.has (keyOf e) = true) ∧
    (parseCreateOpts sampleExternals plainRequest emptyRuntime "alpine" shImage
      (parseCreateOpts sampleExternals plainRequest emptyRuntime "app" appImage
        defaultEnvVariables).1).2.map (fun config => config.Env)
      = .ok [("PATH", "/usr/bin:/bin"), ("TERM", "xterm"), ("SECRET", "hunter2"),
          ("DEBUG", "")] :=
  ⟨((image_env_leaks_into_shared_table sampleExternals plainRequest emptyRuntime "app" appImage
      defaultEnvVariables).2.2.1 rfl rfl [] none (fun _ => rfl)).2, rfl⟩

end Podman
